import Mathlib

/-!
Verification of the governor-gear stat calculator of `ks-heroes-api`
(`src/routes/governor_gear.py`, `calculate_gear_stats` and its helper
`add_to_total`), together with the Pydantic data model it consumes
(`src/schemas/governor_gear.py`, `src/schemas/enums.py`).

Python dictionaries are modelled as insertion-ordered association lists
with unique keys (`dictFind` / `dictInsert` below reproduce `d.get(k)`
and `d[k] = v`), and Python floats as exact rationals `ℚ`.
-/

/-- `HeroClass` from `src/schemas/enums.py`: a `str` enum with members
`Infantry`, `Cavalry`, `Archer`. -/
inductive HeroClass where
  | infantry
  | cavalry
  | archer
deriving DecidableEq, Repr

/-- The `.value` of a `HeroClass` member (the string the enum wraps). -/
def HeroClass.value : HeroClass → String
  | .infantry => "Infantry"
  | .cavalry => "Cavalry"
  | .archer => "Archer"

/-- Modelled from the spec: `GearRarity` is imported by
`src/schemas/governor_gear.py` from `src.schemas.enums` but its definition is
not among the provided sources; the spec describes it as the gear rarity
enumeration "Uncommon, Rare, Epic, Mythic, Legendary". Only its (decidable)
equality is used by the calculator, as a component of the gear-level lookup
key. -/
inductive GearRarity where
  | uncommon
  | rare
  | epic
  | mythic
  | legendary
deriving DecidableEq, Repr

/-- The `.value` of a `GearRarity` member (used when the rarity is rendered
inside an error message). -/
def GearRarity.value : GearRarity → String
  | .uncommon => "Uncommon"
  | .rare => "Rare"
  | .epic => "Epic"
  | .mythic => "Mythic"
  | .legendary => "Legendary"

/-- Python `str.lower()` on one character (the strings it is applied to are
ASCII enum values, where lowering adds 32 to an upper-case code point). -/
def pyCharLower (c : Char) : Char :=
  if 65 ≤ c.toNat ∧ c.toNat ≤ 90 then Char.ofNat (c.toNat + 32) else c

/-- Python `str.lower()`. -/
def pyLower (s : String) : String :=
  String.mk (s.data.map pyCharLower)

/-- Python `str.startswith(pre)`. -/
def pyStartsWith (s pre : String) : Bool :=
  decide (s.data.take pre.data.length = pre.data)

/-- Drop the first `n` characters of a string (Python slicing `s[n:]`). -/
def pyDropChars (s : String) (n : Nat) : String :=
  String.mk (s.data.drop n)

/-- A Python `dict` as an insertion-ordered association list. -/
abbrev Bonuses := List (String × ℚ)

/-- The nested `total_bonuses` structure: group key → (stat key → total). -/
abbrev TotalsDict := List (String × Bonuses)

/-- `d.get(k)`: first (= only, keys being unique) binding of `k` in `d`. -/
def dictFind {κ α : Type} [DecidableEq κ] : List (κ × α) → κ → Option α
  | [], _ => none
  | (k, v) :: rest, k' => if k = k' then some v else dictFind rest k'

/-- `d[k] = v`: replace the value at `k` in place, or append a new binding. -/
def dictInsert {κ α : Type} [DecidableEq κ] : List (κ × α) → κ → α → List (κ × α)
  | [], k, v => [(k, v)]
  | (k0, v0) :: rest, k, v =>
    if k0 = k then (k0, v) :: rest else (k0, v0) :: dictInsert rest k v

/-- A dict comprehension `{key(x): x for x in l}`: later elements with the
same key overwrite earlier ones. -/
def buildMap {κ α : Type} [DecidableEq κ] (key : α → κ) (l : List α) :
    List (κ × α) :=
  l.foldl (fun m x => dictInsert m (key x) x) []

/-- `GovernorGear` (`src/schemas/governor_gear.py`): the fields the
calculator and its callers consume (metadata/image fields are omitted as the
calculator never reads them). -/
structure GovernorGear where
  gear_id : String
  slot : String
  troop_type : HeroClass
  max_charms : Nat
  default_bonus_keys : List String
deriving DecidableEq, Repr

/-- `GovernorGearLevel` (`src/schemas/governor_gear.py`). -/
structure GovernorGearLevel where
  level : Nat
  rarity : GearRarity
  tier : Nat
  stars : Nat
  bonuses : Bonuses
deriving DecidableEq, Repr

/-- `GovernorGearCharmSlot` (`src/schemas/governor_gear.py`). -/
structure GovernorGearCharmSlot where
  gear_id : String
  slot_index : Nat
  troop_type : HeroClass
  bonus_keys : List String
deriving DecidableEq, Repr

/-- `GovernorGearCharmLevel` (`src/schemas/governor_gear.py`). -/
structure GovernorGearCharmLevel where
  level : Int
  bonuses : Bonuses
deriving DecidableEq, Repr

/-- `GearConfiguration` (`src/schemas/governor_gear.py`): one request item. -/
structure GearConfiguration where
  gear_id : String
  rarity : GearRarity
  tier : Nat
  stars : Nat
  gem_levels : List Int
deriving DecidableEq, Repr

/-- `GearStatsBreakdown` (`src/schemas/governor_gear.py`). -/
structure GearStatsBreakdown where
  gear_id : String
  troop_type : Option HeroClass
  gear_bonus : Bonuses
  gem_bonus : Bonuses
  errors : List String
deriving DecidableEq, Repr

/-- `GearStatsCalculation` (`src/schemas/governor_gear.py`). -/
structure GearStatsCalculation where
  total_bonuses : TotalsDict
  breakdown : List GearStatsBreakdown
deriving DecidableEq, Repr

/-- The common write pattern of `add_to_total`:
`total_bonuses.setdefault(group, {})` followed by
`total_bonuses[group][stat] = total_bonuses[group].get(stat, 0.0) + val`. -/
def updateGroup (tb : TotalsDict) (group stat : String) (val : ℚ) : TotalsDict :=
  let inner := (dictFind tb group).getD []
  dictInsert tb group (dictInsert inner stat ((dictFind inner stat).getD 0 + val))

/-- `add_to_total` (`src/routes/governor_gear.py` lines 269-280).
`t_type` is truthy in Python exactly when it is not `None` (the enum members
wrap non-empty strings). Inside the first branch `key` starts with
`"troop_"`, so `key.replace("troop_", "", 1)` removes exactly that
6-character run at the front, i.e. drops the first 6 characters. -/
def add_to_total (total_bonuses : TotalsDict) (key : String) (val : ℚ)
    (t_type : Option HeroClass) : TotalsDict :=
  match t_type with
  | some t =>
    if pyStartsWith key "troop_" then
      updateGroup total_bonuses (pyLower t.value) (pyDropChars key 6) val
    else
      updateGroup total_bonuses "general" key val
  | none => updateGroup total_bonuses "general" key val

/-- `d[k] = d.get(k, 0.0) + v` on a flat bonus dict. -/
def bump (d : Bonuses) (k : String) (v : ℚ) : Bonuses :=
  dictInsert d k ((dictFind d k).getD 0 + v)

/-- The `breakdown_key` normalization (`governor_gear.py` lines 293-297):
`if key in ["attack_pct", "defense_pct", "health_pct"]` the key is rewritten
to `f"troop_{key}"`. -/
def normKey (key : String) : String :=
  if key = "attack_pct" ∨ key = "defense_pct" ∨ key = "health_pct" then
    "troop_" ++ key
  else key

/-- One iteration of the gear-bonus loop (`governor_gear.py` lines 291-303):
normalize the key, accumulate into `current_gear_bonuses` and into the group
totals with the gear piece's troop type. -/
def gearBonusStep (troop : HeroClass) (s : Bonuses × TotalsDict)
    (kv : String × ℚ) : Bonuses × TotalsDict :=
  (bump s.1 (normKey kv.1) kv.2, add_to_total s.2 (normKey kv.1) kv.2 (some troop))

/-- The f-string `f"Level not found for {item.rarity} T{item.tier} {item.stars}*"`
(rarity rendered by its enum value). -/
def levelNotFoundMsg (item : GearConfiguration) : String :=
  "Level not found for " ++ item.rarity.value ++ " T" ++ toString item.tier ++
    " " ++ toString item.stars ++ "*"

/-- The f-string `f"Gear info not found for {item.gear_id}"`. -/
def gearNotFoundMsg (item : GearConfiguration) : String :=
  "Gear info not found for " ++ item.gear_id

/-- The f-string `f"Slot {slot_index} not found for {item.gear_id}"`. -/
def slotNotFoundMsg (slot_index : Nat) (gear_id : String) : String :=
  "Slot " ++ toString slot_index ++ " not found for " ++ gear_id

/-- The f-string `f"Gem level {gem_level_val} not found"`. -/
def gemLevelNotFoundMsg (gv : Int) : String :=
  "Gem level " ++ toString gv ++ " not found"

/-- One iteration of the per-slot bonus-key loop (`governor_gear.py` lines
331-338): fetch the key's value from the charm level's bundle (absent = 0.0)
and accumulate it only when strictly positive, using the slot's troop type. -/
def gemBonusKeyStep (slot : GovernorGearCharmSlot)
    (gem_data : GovernorGearCharmLevel) (s : Bonuses × TotalsDict)
    (key : String) : Bonuses × TotalsDict :=
  let value := (dictFind gem_data.bonuses key).getD 0
  if value > 0 then
    (bump s.1 key value, add_to_total s.2 key value (some slot.troop_type))
  else s

/-- One iteration of the gem loop (`governor_gear.py` lines 312-338) for the
0-based position `i` holding gem level `gv`: resolve the charm slot for
`(gear_id, i+1)` and the charm level for `gv`; a failed lookup appends one
error string and skips the gem (`continue`). -/
def gemSlotStep (charm_slots_map : List ((String × Nat) × GovernorGearCharmSlot))
    (charm_levels_map : List (Int × GovernorGearCharmLevel)) (gear_id : String)
    (i : Nat) (gv : Int) (s : Bonuses × TotalsDict × List String) :
    Bonuses × TotalsDict × List String :=
  let slot_index := i + 1
  match dictFind charm_slots_map (gear_id, slot_index) with
  | none => (s.1, s.2.1, s.2.2 ++ [slotNotFoundMsg slot_index gear_id])
  | some slot =>
    match dictFind charm_levels_map gv with
    | none => (s.1, s.2.1, s.2.2 ++ [gemLevelNotFoundMsg gv])
    | some gem_data =>
      let r := slot.bonus_keys.foldl (gemBonusKeyStep slot gem_data) (s.1, s.2.1)
      (r.1, r.2, s.2.2)

/-- `for i, gem_level_val in enumerate(item.gem_levels)` with running index. -/
def gemLoop (charm_slots_map : List ((String × Nat) × GovernorGearCharmSlot))
    (charm_levels_map : List (Int × GovernorGearCharmLevel)) (gear_id : String) :
    Nat → List Int → Bonuses × TotalsDict × List String →
    Bonuses × TotalsDict × List String
  | _, [], s => s
  | i, gv :: rest, s =>
    gemLoop charm_slots_map charm_levels_map gear_id (i + 1) rest
      (gemSlotStep charm_slots_map charm_levels_map gear_id i gv s)

/-- The body of the `for item in config` loop (`governor_gear.py` lines
282-348) for a single configuration: gear-level bonuses, then gem bonuses,
then the breakdown entry. Returns the updated running totals and the entry
appended to `breakdown`. In Python, `if gear_level and gear_info` tests both
lookups for `None` (Pydantic models are always truthy). -/
def processItem (gear_map : List (String × GovernorGear))
    (levels_map : List ((GearRarity × Nat × Nat) × GovernorGearLevel))
    (charm_levels_map : List (Int × GovernorGearCharmLevel))
    (charm_slots_map : List ((String × Nat) × GovernorGearCharmSlot))
    (total_bonuses : TotalsDict) (item : GearConfiguration) :
    TotalsDict × GearStatsBreakdown :=
  let gear_level := dictFind levels_map (item.rarity, item.tier, item.stars)
  let gear_info := dictFind gear_map item.gear_id
  let s1 : Bonuses × TotalsDict × List String :=
    match gear_level, gear_info with
    | some gl, some gi =>
      let r := gl.bonuses.foldl (gearBonusStep gi.troop_type) ([], total_bonuses)
      (r.1, r.2, [])
    | _, _ =>
      ([], total_bonuses,
        (if gear_level.isNone then [levelNotFoundMsg item] else []) ++
        (if gear_info.isNone then [gearNotFoundMsg item] else []))
  let s2 := gemLoop charm_slots_map charm_levels_map item.gear_id 0
    item.gem_levels ([], s1.2.1, s1.2.2)
  (s2.2.1,
    { gear_id := item.gear_id
      troop_type := Option.map GovernorGear.troop_type gear_info
      gear_bonus := s1.1
      gem_bonus := s2.1
      errors := s2.2.2 })

/-- The `for item in config` loop with its two accumulators. -/
def calcFromMaps (gear_map : List (String × GovernorGear))
    (levels_map : List ((GearRarity × Nat × Nat) × GovernorGearLevel))
    (charm_levels_map : List (Int × GovernorGearCharmLevel))
    (charm_slots_map : List ((String × Nat) × GovernorGearCharmSlot)) :
    List GearConfiguration → TotalsDict → List GearStatsBreakdown →
    GearStatsCalculation
  | [], total_bonuses, breakdown => ⟨total_bonuses, breakdown⟩
  | item :: rest, total_bonuses, breakdown =>
    let r := processItem gear_map levels_map charm_levels_map charm_slots_map
      total_bonuses item
    calcFromMaps gear_map levels_map charm_levels_map charm_slots_map rest r.1
      (breakdown ++ [r.2])

/-- `calculate_gear_stats` (`src/routes/governor_gear.py` lines 233-350):
the four fetched tables are turned into lookup maps keyed by `gear_id`,
`(rarity, tier, stars)`, charm `level` and `(gear_id, slot_index)`, then each
configuration is processed in order. -/
def calculate_gear_stats (config : List GearConfiguration)
    (all_gear : List GovernorGear) (levels : List GovernorGearLevel)
    (charm_levels : List GovernorGearCharmLevel)
    (charm_slots : List GovernorGearCharmSlot) : GearStatsCalculation :=
  let gear_map := buildMap GovernorGear.gear_id all_gear
  let levels_map := buildMap (fun l => (l.rarity, l.tier, l.stars)) levels
  let charm_levels_map := buildMap GovernorGearCharmLevel.level charm_levels
  let charm_slots_map := buildMap (fun s => (s.gear_id, s.slot_index)) charm_slots
  calcFromMaps gear_map levels_map charm_levels_map charm_slots_map config [] []

/-- The reading pattern used by clients of the response (and the repo's own
test): `result.total_bonuses.get(group, {}).get(stat, 0)`. -/
def innerGet (tb : TotalsDict) (group stat : String) : ℚ :=
  (dictFind ((dictFind tb group).getD []) stat).getD 0

/-!
Observer definitions used to state and prove properties of the calculator:
the per-component update functions that the interleaved loops of
`calculate_gear_stats` decompose into (proved below), and the group/stat
selectors of `add_to_total`.
-/

/-- The `current_gear_bonuses` component of one gear-bonus loop iteration. -/
def gearB (s : Bonuses) (kv : String × ℚ) : Bonuses :=
  bump s (normKey kv.1) kv.2

/-- The `total_bonuses` component of one gear-bonus loop iteration. -/
def gearT (troop : HeroClass) (tb : TotalsDict) (kv : String × ℚ) : TotalsDict :=
  add_to_total tb (normKey kv.1) kv.2 (some troop)

/-- The `current_gem_bonuses` component of one bonus-key iteration. -/
def gemKeyB (gem_data : GovernorGearCharmLevel) (b : Bonuses) (key : String) :
    Bonuses :=
  let value := (dictFind gem_data.bonuses key).getD 0
  if value > 0 then bump b key value else b

/-- The `total_bonuses` component of one bonus-key iteration. -/
def gemKeyT (slot : GovernorGearCharmSlot) (gem_data : GovernorGearCharmLevel)
    (t : TotalsDict) (key : String) : TotalsDict :=
  let value := (dictFind gem_data.bonuses key).getD 0
  if value > 0 then add_to_total t key value (some slot.troop_type) else t

/-- The `current_gem_bonuses` component of processing the gem at 0-based
position `i` with level `gv`. -/
def gemSlotB (charm_slots_map : List ((String × Nat) × GovernorGearCharmSlot))
    (charm_levels_map : List (Int × GovernorGearCharmLevel)) (gear_id : String)
    (i : Nat) (gv : Int) (b : Bonuses) : Bonuses :=
  match dictFind charm_slots_map (gear_id, i + 1) with
  | none => b
  | some slot =>
    match dictFind charm_levels_map gv with
    | none => b
    | some gem_data => slot.bonus_keys.foldl (gemKeyB gem_data) b

/-- The `total_bonuses` component of processing the gem at position `i`. -/
def gemSlotT (charm_slots_map : List ((String × Nat) × GovernorGearCharmSlot))
    (charm_levels_map : List (Int × GovernorGearCharmLevel)) (gear_id : String)
    (i : Nat) (gv : Int) (t : TotalsDict) : TotalsDict :=
  match dictFind charm_slots_map (gear_id, i + 1) with
  | none => t
  | some slot =>
    match dictFind charm_levels_map gv with
    | none => t
    | some gem_data => slot.bonus_keys.foldl (gemKeyT slot gem_data) t

/-- The `errors` component of processing the gem at position `i`. -/
def gemSlotE (charm_slots_map : List ((String × Nat) × GovernorGearCharmSlot))
    (charm_levels_map : List (Int × GovernorGearCharmLevel)) (gear_id : String)
    (i : Nat) (gv : Int) (e : List String) : List String :=
  match dictFind charm_slots_map (gear_id, i + 1) with
  | none => e ++ [slotNotFoundMsg (i + 1) gear_id]
  | some _ =>
    match dictFind charm_levels_map gv with
    | none => e ++ [gemLevelNotFoundMsg gv]
    | some _ => e

/-- The `current_gem_bonuses` component of the whole gem loop. -/
def gemsB (charm_slots_map : List ((String × Nat) × GovernorGearCharmSlot))
    (charm_levels_map : List (Int × GovernorGearCharmLevel)) (gear_id : String) :
    Nat → List Int → Bonuses → Bonuses
  | _, [], b => b
  | i, gv :: rest, b =>
    gemsB charm_slots_map charm_levels_map gear_id (i + 1) rest
      (gemSlotB charm_slots_map charm_levels_map gear_id i gv b)

/-- The `total_bonuses` component of the whole gem loop. -/
def gemsT (charm_slots_map : List ((String × Nat) × GovernorGearCharmSlot))
    (charm_levels_map : List (Int × GovernorGearCharmLevel)) (gear_id : String) :
    Nat → List Int → TotalsDict → TotalsDict
  | _, [], t => t
  | i, gv :: rest, t =>
    gemsT charm_slots_map charm_levels_map gear_id (i + 1) rest
      (gemSlotT charm_slots_map charm_levels_map gear_id i gv t)

/-- The `errors` component of the whole gem loop. -/
def gemsE (charm_slots_map : List ((String × Nat) × GovernorGearCharmSlot))
    (charm_levels_map : List (Int × GovernorGearCharmLevel)) (gear_id : String) :
    Nat → List Int → List String → List String
  | _, [], e => e
  | i, gv :: rest, e =>
    gemsE charm_slots_map charm_levels_map gear_id (i + 1) rest
      (gemSlotE charm_slots_map charm_levels_map gear_id i gv e)

/-- The breakdown entry produced for one configuration: it depends only on
the configuration and the four lookup maps, never on the running totals
(proved below as `processItem_eq`). -/
def itemEntry (gear_map : List (String × GovernorGear))
    (levels_map : List ((GearRarity × Nat × Nat) × GovernorGearLevel))
    (charm_levels_map : List (Int × GovernorGearCharmLevel))
    (charm_slots_map : List ((String × Nat) × GovernorGearCharmSlot))
    (item : GearConfiguration) : GearStatsBreakdown :=
  let gear_level := dictFind levels_map (item.rarity, item.tier, item.stars)
  let gear_info := dictFind gear_map item.gear_id
  let gb : Bonuses :=
    match gear_level, gear_info with
    | some gl, some _ => gl.bonuses.foldl gearB []
    | _, _ => []
  let ge : List String :=
    match gear_level, gear_info with
    | some _, some _ => []
    | _, _ =>
      (if gear_level.isNone then [levelNotFoundMsg item] else []) ++
      (if gear_info.isNone then [gearNotFoundMsg item] else [])
  { gear_id := item.gear_id
    troop_type := Option.map GovernorGear.troop_type gear_info
    gear_bonus := gb
    gem_bonus := gemsB charm_slots_map charm_levels_map item.gear_id 0
      item.gem_levels []
    errors := gemsE charm_slots_map charm_levels_map item.gear_id 0
      item.gem_levels ge }

/-- The effect of one configuration on the running group totals. -/
def itemTotalsFn (gear_map : List (String × GovernorGear))
    (levels_map : List ((GearRarity × Nat × Nat) × GovernorGearLevel))
    (charm_levels_map : List (Int × GovernorGearCharmLevel))
    (charm_slots_map : List ((String × Nat) × GovernorGearCharmSlot))
    (item : GearConfiguration) (tb : TotalsDict) : TotalsDict :=
  let gear_level := dictFind levels_map (item.rarity, item.tier, item.stars)
  let gear_info := dictFind gear_map item.gear_id
  let t1 : TotalsDict :=
    match gear_level, gear_info with
    | some gl, some gi => gl.bonuses.foldl (gearT gi.troop_type) tb
    | _, _ => tb
  gemsT charm_slots_map charm_levels_map item.gear_id 0 item.gem_levels t1

/-- The group key `add_to_total` files a contribution under. -/
def totalsGroup (key : String) (t_type : Option HeroClass) : String :=
  match t_type with
  | some t => if pyStartsWith key "troop_" then pyLower t.value else "general"
  | none => "general"

/-- The stat key `add_to_total` files a contribution under. -/
def totalsStat (key : String) (t_type : Option HeroClass) : String :=
  match t_type with
  | some _ => if pyStartsWith key "troop_" then pyDropChars key 6 else key
  | none => key

/-- A totals transformer that adds a fixed (input-determined) amount to every
(group, stat) cell, independently of the totals it starts from. -/
def IsShift (f : TotalsDict → TotalsDict) : Prop :=
  ∀ tb g s, innerGet (f tb) g s = innerGet tb g s + innerGet (f []) g s

/-!
The concrete fixture of `tests/test_governor_gear_calculator.py`
(`run_async_test`): four Epic gear levels, six gear pieces, three charm
levels, three identical charm slots per gear piece, and the six-item request.
-/

/-- Fixture gear levels (Epic tier 0 stars 1-3, Epic tier 1 stars 0). -/
def fixtureLevels : List GovernorGearLevel :=
  [⟨8, .epic, 0, 1, [("attack_pct", 36.89), ("defense_pct", 36.89)]⟩,
   ⟨9, .epic, 0, 2, [("attack_pct", 39.78), ("defense_pct", 39.78)]⟩,
   ⟨10, .epic, 0, 3, [("attack_pct", 42.67), ("defense_pct", 42.67)]⟩,
   ⟨11, .epic, 1, 0, [("attack_pct", 45.56), ("defense_pct", 45.56)]⟩]

/-- Fixture troop-type affinity per gear piece. -/
def fixtureTroopType : String → HeroClass
  | "head" => .cavalry
  | "amulet" => .cavalry
  | "chest" => .infantry
  | "legs" => .infantry
  | "ring" => .archer
  | _ => .archer

/-- Fixture gear pieces (head, amulet, chest, legs, ring, staff). -/
def fixtureGear : List GovernorGear :=
  [⟨"head", "Head", .cavalry, 3, ["attack_pct", "defense_pct"]⟩,
   ⟨"amulet", "Amulet", .cavalry, 3, ["attack_pct", "defense_pct"]⟩,
   ⟨"chest", "Chest", .infantry, 3, ["attack_pct", "defense_pct"]⟩,
   ⟨"legs", "Legs", .infantry, 3, ["attack_pct", "defense_pct"]⟩,
   ⟨"ring", "Ring", .archer, 3, ["attack_pct", "defense_pct"]⟩,
   ⟨"staff", "Staff", .archer, 3, ["attack_pct", "defense_pct"]⟩]

/-- Fixture charm levels 1/2/3 with lethality/health 9/12/16. -/
def fixtureCharmLevels : List GovernorGearCharmLevel :=
  [⟨1, [("troop_lethality_pct", 9), ("troop_health_pct", 9)]⟩,
   ⟨2, [("troop_lethality_pct", 12), ("troop_health_pct", 12)]⟩,
   ⟨3, [("troop_lethality_pct", 16), ("troop_health_pct", 16)]⟩]

/-- Fixture charm slots: three per gear piece, inheriting the gear's troop
type, each granting lethality and health. -/
def fixtureCharmSlots : List GovernorGearCharmSlot :=
  (["head", "amulet", "chest", "legs", "ring", "staff"].map fun gid =>
    [1, 2, 3].map fun i =>
      ⟨gid, i, fixtureTroopType gid,
        ["troop_lethality_pct", "troop_health_pct"]⟩).flatten

/-- The fixture request: six configurations. -/
def fixtureConfig : List GearConfiguration :=
  [⟨"head", .epic, 0, 1, [1, 1, 1]⟩,
   ⟨"amulet", .epic, 0, 1, [1, 1, 1]⟩,
   ⟨"chest", .epic, 1, 0, [2, 2, 2]⟩,
   ⟨"legs", .epic, 0, 3, [2, 2, 2]⟩,
   ⟨"ring", .epic, 0, 2, [2, 2, 2]⟩,
   ⟨"staff", .epic, 0, 2, [3, 2, 1]⟩]

/-- The calculator's output on the fixture. -/
def fixtureResult : GearStatsCalculation :=
  calculate_gear_stats fixtureConfig fixtureGear fixtureLevels
    fixtureCharmLevels fixtureCharmSlots

/-- `lastWith key l k`: the last element of `l` whose key is `k` (what a
Python dict comprehension retains for duplicated keys). -/
def lastWith {κ α : Type} [DecidableEq κ] (key : α → κ) (l : List α) (k : κ) :
    Option α :=
  l.foldl (fun acc a => if key a = k then some a else acc) none

/-!  Lemmas about the dictionary model. -/

theorem dictFind_insert {κ α : Type} [DecidableEq κ] (d : List (κ × α))
    (k k' : κ) (v : α) :
    dictFind (dictInsert d k v) k' = if k = k' then some v else dictFind d k' := by
  induction d with
  | nil => simp [dictInsert, dictFind]
  | cons hd tl ih =>
    obtain ⟨k0, v0⟩ := hd
    by_cases h0 : k0 = k
    · subst h0
      by_cases h1 : k0 = k'
      · subst h1
        simp [dictInsert, dictFind]
      · simp [dictInsert, dictFind, h1]
    · by_cases h1 : k0 = k'
      · subst h1
        have hks : ¬k = k0 := fun h => h0 h.symm
        simp [dictInsert, dictFind, h0, hks]
      · simp [dictInsert, dictFind, h0, h1, ih]

theorem innerGet_nil (g s : String) : innerGet [] g s = 0 := rfl

theorem innerGet_updateGroup (tb : TotalsDict) (g s : String) (v : ℚ)
    (g' s' : String) :
    innerGet (updateGroup tb g s v) g' s' =
      innerGet tb g' s' + if g = g' ∧ s = s' then v else 0 := by
  unfold innerGet updateGroup
  rw [dictFind_insert]
  by_cases hg : g = g'
  · subst hg
    rw [if_pos rfl]
    simp only [Option.getD_some, dictFind_insert, true_and]
    by_cases hs : s = s'
    · subst hs
      simp
    · simp [hs]
  · simp [hg]

theorem dictFind_updateGroup_ne (tb : TotalsDict) (g s : String) (v : ℚ)
    (g' : String) (h : g ≠ g') :
    dictFind (updateGroup tb g s v) g' = dictFind tb g' := by
  unfold updateGroup
  rw [dictFind_insert, if_neg h]

theorem add_to_total_eq (tb : TotalsDict) (key : String) (val : ℚ)
    (t : Option HeroClass) :
    add_to_total tb key val t =
      updateGroup tb (totalsGroup key t) (totalsStat key t) val := by
  cases t with
  | none => rfl
  | some tt =>
    simp only [add_to_total, totalsGroup, totalsStat]
    by_cases h : pyStartsWith key "troop_" = true <;> simp [h]

theorem innerGet_add_to_total (tb : TotalsDict) (key : String) (val : ℚ)
    (t : Option HeroClass) (g s : String) :
    innerGet (add_to_total tb key val t) g s =
      innerGet tb g s +
        if totalsGroup key t = g ∧ totalsStat key t = s then val else 0 := by
  rw [add_to_total_eq, innerGet_updateGroup]

theorem dictFind_add_to_total_ne (tb : TotalsDict) (key : String) (val : ℚ)
    (t : Option HeroClass) (g : String) (h : totalsGroup key t ≠ g) :
    dictFind (add_to_total tb key val t) g = dictFind tb g := by
  rw [add_to_total_eq]
  exact dictFind_updateGroup_ne _ _ _ _ _ h

/-!  Ground facts about the strings involved in key normalization. -/

theorem pyLower_infantry : pyLower HeroClass.infantry.value = "infantry" := by decide

theorem pyLower_cavalry : pyLower HeroClass.cavalry.value = "cavalry" := by decide

theorem pyLower_archer : pyLower HeroClass.archer.value = "archer" := by decide

theorem pyLower_value_mem (t : HeroClass) :
    pyLower t.value ∈ ["infantry", "cavalry", "archer"] := by
  cases t <;> decide

theorem pyStartsWith_append (pre s : String) :
    pyStartsWith (pre ++ s) pre = true := by
  simp [pyStartsWith, String.data_append, List.take_left]

theorem pyDropChars_troop_append (s : String) :
    pyDropChars ("troop_" ++ s) 6 = s := by
  simp [pyDropChars, String.data_append]

theorem troop_append_ne (k t : String) (ht : pyStartsWith t "troop_" = false) :
    "troop_" ++ k ≠ t := by
  intro h
  rw [← h, pyStartsWith_append] at ht
  exact absurd ht (by decide)

theorem normKey_not_raw (k : String) :
    normKey k ≠ "attack_pct" ∧ normKey k ≠ "defense_pct" ∧
      normKey k ≠ "health_pct" := by
  unfold normKey
  split
  · exact ⟨troop_append_ne k _ (by decide), troop_append_ne k _ (by decide),
      troop_append_ne k _ (by decide)⟩
  · next h =>
    push_neg at h
    exact ⟨h.1, h.2.1, h.2.2⟩

/-!  Decomposition of the interleaved loops into per-component loops. -/

theorem gearBonusStep_eq (tt : HeroClass) (b : Bonuses) (tb : TotalsDict)
    (kv : String × ℚ) :
    gearBonusStep tt (b, tb) kv = (gearB b kv, gearT tt tb kv) := rfl

theorem foldl_gearBonusStep (tt : HeroClass) (l : List (String × ℚ)) :
    ∀ (b : Bonuses) (tb : TotalsDict),
      l.foldl (gearBonusStep tt) (b, tb) =
        (l.foldl gearB b, l.foldl (gearT tt) tb) := by
  induction l with
  | nil => intro b tb; rfl
  | cons kv rest ih =>
    intro b tb
    simp only [List.foldl_cons, gearBonusStep_eq]
    exact ih _ _

theorem gemBonusKeyStep_eq (slot : GovernorGearCharmSlot)
    (gd : GovernorGearCharmLevel) (b : Bonuses) (t : TotalsDict) (key : String) :
    gemBonusKeyStep slot gd (b, t) key = (gemKeyB gd b key, gemKeyT slot gd t key) := by
  unfold gemBonusKeyStep gemKeyB gemKeyT
  by_cases h : (dictFind gd.bonuses key).getD 0 > 0 <;> simp [h]

theorem foldl_gemBonusKeyStep (slot : GovernorGearCharmSlot)
    (gd : GovernorGearCharmLevel) (keys : List String) :
    ∀ (b : Bonuses) (t : TotalsDict),
      keys.foldl (gemBonusKeyStep slot gd) (b, t) =
        (keys.foldl (gemKeyB gd) b, keys.foldl (gemKeyT slot gd) t) := by
  induction keys with
  | nil => intro b t; rfl
  | cons k rest ih =>
    intro b t
    simp only [List.foldl_cons, gemBonusKeyStep_eq]
    exact ih _ _

theorem gemSlotStep_eq (csm : List ((String × Nat) × GovernorGearCharmSlot))
    (clm : List (Int × GovernorGearCharmLevel)) (gid : String) (i : Nat)
    (gv : Int) (b : Bonuses) (t : TotalsDict) (e : List String) :
    gemSlotStep csm clm gid i gv (b, t, e) =
      (gemSlotB csm clm gid i gv b, gemSlotT csm clm gid i gv t,
        gemSlotE csm clm gid i gv e) := by
  unfold gemSlotStep gemSlotB gemSlotT gemSlotE
  cases hcs : dictFind csm (gid, i + 1) with
  | none => simp [hcs]
  | some slot =>
    cases hcl : dictFind clm gv with
    | none => simp [hcs, hcl]
    | some gd => simp [hcs, hcl, foldl_gemBonusKeyStep]

theorem gemLoop_eq (csm : List ((String × Nat) × GovernorGearCharmSlot))
    (clm : List (Int × GovernorGearCharmLevel)) (gid : String)
    (gems : List Int) :
    ∀ (i : Nat) (b : Bonuses) (t : TotalsDict) (e : List String),
      gemLoop csm clm gid i gems (b, t, e) =
        (gemsB csm clm gid i gems b, gemsT csm clm gid i gems t,
          gemsE csm clm gid i gems e) := by
  induction gems with
  | nil => intros; rfl
  | cons gv rest ih =>
    intro i b t e
    simp only [gemLoop, gemsB, gemsT, gemsE, gemSlotStep_eq]
    exact ih _ _ _ _

theorem processItem_eq (gm : List (String × GovernorGear))
    (lm : List ((GearRarity × Nat × Nat) × GovernorGearLevel))
    (clm : List (Int × GovernorGearCharmLevel))
    (csm : List ((String × Nat) × GovernorGearCharmSlot)) (tb : TotalsDict)
    (item : GearConfiguration) :
    processItem gm lm clm csm tb item =
      (itemTotalsFn gm lm clm csm item tb, itemEntry gm lm clm csm item) := by
  unfold processItem itemTotalsFn itemEntry
  cases hl : dictFind lm (item.rarity, item.tier, item.stars) with
  | none => simp [gemLoop_eq]
  | some gl =>
    cases hg : dictFind gm item.gear_id with
    | none => simp [gemLoop_eq]
    | some gi => simp [foldl_gearBonusStep, gemLoop_eq]

theorem calcFromMaps_breakdown (gm : List (String × GovernorGear))
    (lm : List ((GearRarity × Nat × Nat) × GovernorGearLevel))
    (clm : List (Int × GovernorGearCharmLevel))
    (csm : List ((String × Nat) × GovernorGearCharmSlot))
    (config : List GearConfiguration) :
    ∀ (tb : TotalsDict) (bd : List GearStatsBreakdown),
      (calcFromMaps gm lm clm csm config tb bd).breakdown =
        bd ++ config.map (itemEntry gm lm clm csm) := by
  induction config with
  | nil => intro tb bd; simp [calcFromMaps]
  | cons item rest ih =>
    intro tb bd
    simp only [calcFromMaps, processItem_eq, List.map_cons]
    rw [ih]
    simp

theorem calcFromMaps_totals (gm : List (String × GovernorGear))
    (lm : List ((GearRarity × Nat × Nat) × GovernorGearLevel))
    (clm : List (Int × GovernorGearCharmLevel))
    (csm : List ((String × Nat) × GovernorGearCharmSlot))
    (config : List GearConfiguration) :
    ∀ (tb : TotalsDict) (bd : List GearStatsBreakdown),
      (calcFromMaps gm lm clm csm config tb bd).total_bonuses =
        config.foldl (fun t item => itemTotalsFn gm lm clm csm item t) tb := by
  induction config with
  | nil => intros; rfl
  | cons item rest ih =>
    intro tb bd
    simp only [calcFromMaps, processItem_eq, List.foldl_cons]
    exact ih _ _

theorem calculate_breakdown (config : List GearConfiguration)
    (G : List GovernorGear) (L : List GovernorGearLevel)
    (CL : List GovernorGearCharmLevel) (CS : List GovernorGearCharmSlot) :
    (calculate_gear_stats config G L CL CS).breakdown =
      config.map (itemEntry (buildMap GovernorGear.gear_id G)
        (buildMap (fun l => (l.rarity, l.tier, l.stars)) L)
        (buildMap GovernorGearCharmLevel.level CL)
        (buildMap (fun s => (s.gear_id, s.slot_index)) CS)) := by
  unfold calculate_gear_stats
  rw [calcFromMaps_breakdown]
  rfl

theorem calculate_totals (config : List GearConfiguration)
    (G : List GovernorGear) (L : List GovernorGearLevel)
    (CL : List GovernorGearCharmLevel) (CS : List GovernorGearCharmSlot) :
    (calculate_gear_stats config G L CL CS).total_bonuses =
      config.foldl (fun t item =>
        itemTotalsFn (buildMap GovernorGear.gear_id G)
          (buildMap (fun l => (l.rarity, l.tier, l.stars)) L)
          (buildMap GovernorGearCharmLevel.level CL)
          (buildMap (fun s => (s.gear_id, s.slot_index)) CS) item t) [] := by
  unfold calculate_gear_stats
  rw [calcFromMaps_totals]

/-!  Additivity (shift) structure of the totals updates. -/

theorem isShift_comp {f g : TotalsDict → TotalsDict} (hf : IsShift f)
    (hg : IsShift g) : IsShift (fun tb => g (f tb)) := by
  intro tb gr s
  have h1 := hg (f tb) gr s
  have h2 := hf tb gr s
  have h3 := hg (f []) gr s
  rw [h1, h2, h3]
  ring

theorem isShift_add_to_total (key : String) (val : ℚ) (t : Option HeroClass) :
    IsShift (fun tb => add_to_total tb key val t) := by
  intro tb g s
  rw [innerGet_add_to_total, innerGet_add_to_total, innerGet_nil]
  ring

theorem isShift_foldl {ι : Type} (step : TotalsDict → ι → TotalsDict)
    (h : ∀ x, IsShift (fun tb => step tb x)) (l : List ι) :
    IsShift (fun tb => l.foldl step tb) := by
  induction l with
  | nil => intro tb g s; simp [innerGet_nil]
  | cons x rest ih =>
    intro tb g s
    have hc := isShift_comp (h x) ih tb g s
    simpa using hc

theorem isShift_gearT_foldl (tt : HeroClass) (l : List (String × ℚ)) :
    IsShift (fun tb => l.foldl (gearT tt) tb) := by
  apply isShift_foldl
  intro kv
  exact isShift_add_to_total (normKey kv.1) kv.2 (some tt)

theorem isShift_gemKeyT (slot : GovernorGearCharmSlot)
    (gd : GovernorGearCharmLevel) (key : String) :
    IsShift (fun t => gemKeyT slot gd t key) := by
  intro tb g s
  unfold gemKeyT
  by_cases h : (dictFind gd.bonuses key).getD 0 > 0
  · simp only [h, if_pos]
    exact isShift_add_to_total _ _ _ tb g s
  · simp [h, innerGet_nil]

theorem isShift_gemSlotT (csm : List ((String × Nat) × GovernorGearCharmSlot))
    (clm : List (Int × GovernorGearCharmLevel)) (gid : String) (i : Nat)
    (gv : Int) : IsShift (gemSlotT csm clm gid i gv) := by
  intro tb g s
  unfold gemSlotT
  cases hcs : dictFind csm (gid, i + 1) with
  | none => simp [innerGet_nil]
  | some slot =>
    cases hcl : dictFind clm gv with
    | none => simp [innerGet_nil]
    | some gd =>
      exact isShift_foldl _ (fun key => isShift_gemKeyT slot gd key) slot.bonus_keys tb g s

theorem isShift_gemsT (csm : List ((String × Nat) × GovernorGearCharmSlot))
    (clm : List (Int × GovernorGearCharmLevel)) (gid : String)
    (gems : List Int) : ∀ i, IsShift (gemsT csm clm gid i gems) := by
  induction gems with
  | nil => intro i tb g s; simp [gemsT, innerGet_nil]
  | cons gv rest ih =>
    intro i tb g s
    have hc := isShift_comp (isShift_gemSlotT csm clm gid i gv) (ih (i + 1)) tb g s
    simpa [gemsT] using hc

theorem isShift_itemTotalsFn (gm : List (String × GovernorGear))
    (lm : List ((GearRarity × Nat × Nat) × GovernorGearLevel))
    (clm : List (Int × GovernorGearCharmLevel))
    (csm : List ((String × Nat) × GovernorGearCharmSlot))
    (item : GearConfiguration) : IsShift (itemTotalsFn gm lm clm csm item) := by
  intro tb g s
  unfold itemTotalsFn
  cases hl : dictFind lm (item.rarity, item.tier, item.stars) with
  | none =>
    simp only []
    exact isShift_gemsT csm clm item.gear_id item.gem_levels 0 tb g s
  | some gl =>
    cases hg : dictFind gm item.gear_id with
    | none =>
      simp only []
      exact isShift_gemsT csm clm item.gear_id item.gem_levels 0 tb g s
    | some gi =>
      simp only []
      exact isShift_comp (isShift_gearT_foldl gi.troop_type gl.bonuses)
        (isShift_gemsT csm clm item.gear_id item.gem_levels 0) tb g s

theorem isShift_config_foldl (gm : List (String × GovernorGear))
    (lm : List ((GearRarity × Nat × Nat) × GovernorGearLevel))
    (clm : List (Int × GovernorGearCharmLevel))
    (csm : List ((String × Nat) × GovernorGearCharmSlot))
    (config : List GearConfiguration) :
    IsShift (fun tb =>
      config.foldl (fun t item => itemTotalsFn gm lm clm csm item t) tb) :=
  isShift_foldl _ (fun item => isShift_itemTotalsFn gm lm clm csm item) config

/-!  Structure of the gem loop: appends, initial-segment independence. -/

theorem gemsB_append (csm : List ((String × Nat) × GovernorGearCharmSlot))
    (clm : List (Int × GovernorGearCharmLevel)) (gid : String)
    (xs ys : List Int) :
    ∀ (i : Nat) (b : Bonuses),
      gemsB csm clm gid i (xs ++ ys) b =
        gemsB csm clm gid (i + xs.length) ys (gemsB csm clm gid i xs b) := by
  induction xs with
  | nil => intro i b; simp [gemsB]
  | cons gv rest ih =>
    intro i b
    show gemsB csm clm gid (i + 1) (rest ++ ys)
        (gemSlotB csm clm gid i gv b) =
      gemsB csm clm gid (i + (rest.length + 1)) ys
        (gemsB csm clm gid (i + 1) rest (gemSlotB csm clm gid i gv b))
    rw [ih]
    have harith : i + 1 + rest.length = i + (rest.length + 1) := by omega
    rw [harith]

theorem gemsT_append (csm : List ((String × Nat) × GovernorGearCharmSlot))
    (clm : List (Int × GovernorGearCharmLevel)) (gid : String)
    (xs ys : List Int) :
    ∀ (i : Nat) (t : TotalsDict),
      gemsT csm clm gid i (xs ++ ys) t =
        gemsT csm clm gid (i + xs.length) ys (gemsT csm clm gid i xs t) := by
  induction xs with
  | nil => intro i t; simp [gemsT]
  | cons gv rest ih =>
    intro i t
    show gemsT csm clm gid (i + 1) (rest ++ ys)
        (gemSlotT csm clm gid i gv t) =
      gemsT csm clm gid (i + (rest.length + 1)) ys
        (gemsT csm clm gid (i + 1) rest (gemSlotT csm clm gid i gv t))
    rw [ih]
    have harith : i + 1 + rest.length = i + (rest.length + 1) := by omega
    rw [harith]

theorem gemsE_append (csm : List ((String × Nat) × GovernorGearCharmSlot))
    (clm : List (Int × GovernorGearCharmLevel)) (gid : String)
    (xs ys : List Int) :
    ∀ (i : Nat) (e : List String),
      gemsE csm clm gid i (xs ++ ys) e =
        gemsE csm clm gid (i + xs.length) ys (gemsE csm clm gid i xs e) := by
  induction xs with
  | nil => intro i e; simp [gemsE]
  | cons gv rest ih =>
    intro i e
    show gemsE csm clm gid (i + 1) (rest ++ ys)
        (gemSlotE csm clm gid i gv e) =
      gemsE csm clm gid (i + (rest.length + 1)) ys
        (gemsE csm clm gid (i + 1) rest (gemSlotE csm clm gid i gv e))
    rw [ih]
    have harith : i + 1 + rest.length = i + (rest.length + 1) := by omega
    rw [harith]

theorem gemSlotE_shift (csm : List ((String × Nat) × GovernorGearCharmSlot))
    (clm : List (Int × GovernorGearCharmLevel)) (gid : String) (i : Nat)
    (gv : Int) (e : List String) :
    gemSlotE csm clm gid i gv e = e ++ gemSlotE csm clm gid i gv [] := by
  unfold gemSlotE
  cases dictFind csm (gid, i + 1) with
  | none => simp
  | some slot =>
    cases dictFind clm gv with
    | none => simp
    | some gd => simp

theorem gemsE_shift (csm : List ((String × Nat) × GovernorGearCharmSlot))
    (clm : List (Int × GovernorGearCharmLevel)) (gid : String)
    (gems : List Int) :
    ∀ (i : Nat) (e : List String),
      gemsE csm clm gid i gems e = e ++ gemsE csm clm gid i gems [] := by
  induction gems with
  | nil => intro i e; simp [gemsE]
  | cons gv rest ih =>
    intro i e
    simp only [gemsE]
    rw [ih (i + 1) (gemSlotE csm clm gid i gv e),
      ih (i + 1) (gemSlotE csm clm gid i gv []),
      gemSlotE_shift]
    simp

/-!  Key membership in the accumulated bonus dicts. -/

theorem keys_dictInsert {κ α : Type} [DecidableEq κ] (d : List (κ × α))
    (k : κ) (v : α) (k' : κ) :
    k' ∈ (dictInsert d k v).map Prod.fst ↔ k' ∈ d.map Prod.fst ∨ k' = k := by
  induction d with
  | nil => simp [dictInsert]
  | cons hd tl ih =>
    obtain ⟨k0, v0⟩ := hd
    by_cases h0 : k0 = k
    · subst h0
      have hstep : dictInsert ((k0, v0) :: tl) k0 v = (k0, v) :: tl := by
        simp [dictInsert]
      rw [hstep]
      simp only [List.map_cons, List.mem_cons]
      tauto
    · simp only [dictInsert, if_neg h0, List.map_cons, List.mem_cons, ih]
      tauto

theorem keys_bump (d : Bonuses) (k : String) (v : ℚ) (k' : String) :
    k' ∈ (bump d k v).map Prod.fst ↔ k' ∈ d.map Prod.fst ∨ k' = k :=
  keys_dictInsert d k _ k'

theorem keys_foldl_gearB_mono (l : List (String × ℚ)) :
    ∀ (d : Bonuses) (k' : String),
      k' ∈ d.map Prod.fst → k' ∈ (l.foldl gearB d).map Prod.fst := by
  induction l with
  | nil => intro d k' h; simpa using h
  | cons kv rest ih =>
    intro d k' h
    simp only [List.foldl_cons]
    exact ih _ _ ((keys_bump d (normKey kv.1) kv.2 k').mpr (Or.inl h))

theorem mem_keys_foldl_gearB (l : List (String × ℚ)) :
    ∀ (d : Bonuses) (key : String), key ∈ l.map Prod.fst →
      normKey key ∈ (l.foldl gearB d).map Prod.fst := by
  induction l with
  | nil => intro d key h; simp at h
  | cons kv rest ih =>
    intro d key h
    simp only [List.map_cons, List.mem_cons] at h
    simp only [List.foldl_cons]
    rcases h with h | h
    · subst h
      exact keys_foldl_gearB_mono rest _ _
        ((keys_bump d (normKey kv.1) kv.2 (normKey kv.1)).mpr (Or.inr rfl))
    · exact ih _ _ h

theorem keys_foldl_gearB_sub (l : List (String × ℚ)) :
    ∀ (d : Bonuses) (k' : String), k' ∈ (l.foldl gearB d).map Prod.fst →
      k' ∈ d.map Prod.fst ∨ ∃ k0, k0 ∈ l.map Prod.fst ∧ k' = normKey k0 := by
  induction l with
  | nil => intro d k' h; exact Or.inl (by simpa using h)
  | cons kv rest ih =>
    intro d k' h
    simp only [List.foldl_cons] at h
    rcases ih _ _ h with h2 | ⟨k0, hk0, rfl⟩
    · rcases (keys_bump d (normKey kv.1) kv.2 k').mp h2 with h3 | h3
      · exact Or.inl h3
      · exact Or.inr ⟨kv.1, by simp, h3⟩
    · exact Or.inr ⟨k0, by simp [hk0], rfl⟩

/-!  Lookup maps built from fetched lists: duplicates resolve to the later
entry. -/

theorem dictFind_buildMap {κ α : Type} [DecidableEq κ] (key : α → κ)
    (l : List α) (k : κ) :
    dictFind (buildMap key l) k = lastWith key l k := by
  suffices h : ∀ m, dictFind (l.foldl (fun m x => dictInsert m (key x) x) m) k =
      l.foldl (fun acc a => if key a = k then some a else acc) (dictFind m k) by
    simpa [buildMap, lastWith] using h []
  induction l with
  | nil => intro m; rfl
  | cons x rest ih =>
    intro m
    simp only [List.foldl_cons]
    rw [ih]
    congr 1
    rw [dictFind_insert]

theorem lastWith_foldl_indep {κ α : Type} [DecidableEq κ] (key : α → κ)
    (k : κ) (ys : List α) (h : ∃ y ∈ ys, key y = k) :
    ∀ acc acc' : Option α,
      ys.foldl (fun acc a => if key a = k then some a else acc) acc =
        ys.foldl (fun acc a => if key a = k then some a else acc) acc' := by
  induction ys with
  | nil => simp at h
  | cons y rest ih =>
    intro acc acc'
    simp only [List.foldl_cons]
    by_cases hy : key y = k
    · simp [hy]
    · obtain ⟨y0, hy0, hk0⟩ := h
      simp only [List.mem_cons] at hy0
      rcases hy0 with rfl | hy0
      · exact absurd hk0 hy
      · exact ih ⟨y0, hy0, hk0⟩ _ _

theorem dictFind_buildMap_skip_dup {κ α : Type} [DecidableEq κ] (key : α → κ)
    (xs : List α) (x : α) (ys : List α) (h : ∃ y ∈ ys, key y = key x) (k : κ) :
    dictFind (buildMap key (xs ++ x :: ys)) k =
      dictFind (buildMap key (xs ++ ys)) k := by
  rw [dictFind_buildMap, dictFind_buildMap]
  unfold lastWith
  rw [List.foldl_append, List.foldl_append, List.foldl_cons]
  by_cases hk : key x = k
  · subst hk
    exact lastWith_foldl_indep key (key x) ys h _ _
  · simp [hk]

/-!  The calculator reads the lookup maps only through `dictFind`. -/

theorem gemSlotB_ext {csm csm' : List ((String × Nat) × GovernorGearCharmSlot)}
    {clm clm' : List (Int × GovernorGearCharmLevel)}
    (h1 : ∀ k, dictFind csm k = dictFind csm' k)
    (h2 : ∀ k, dictFind clm k = dictFind clm' k) (gid : String) (i : Nat)
    (gv : Int) (b : Bonuses) :
    gemSlotB csm clm gid i gv b = gemSlotB csm' clm' gid i gv b := by
  unfold gemSlotB
  simp only [h1, h2]

theorem gemSlotT_ext {csm csm' : List ((String × Nat) × GovernorGearCharmSlot)}
    {clm clm' : List (Int × GovernorGearCharmLevel)}
    (h1 : ∀ k, dictFind csm k = dictFind csm' k)
    (h2 : ∀ k, dictFind clm k = dictFind clm' k) (gid : String) (i : Nat)
    (gv : Int) (t : TotalsDict) :
    gemSlotT csm clm gid i gv t = gemSlotT csm' clm' gid i gv t := by
  unfold gemSlotT
  simp only [h1, h2]

theorem gemSlotE_ext {csm csm' : List ((String × Nat) × GovernorGearCharmSlot)}
    {clm clm' : List (Int × GovernorGearCharmLevel)}
    (h1 : ∀ k, dictFind csm k = dictFind csm' k)
    (h2 : ∀ k, dictFind clm k = dictFind clm' k) (gid : String) (i : Nat)
    (gv : Int) (e : List String) :
    gemSlotE csm clm gid i gv e = gemSlotE csm' clm' gid i gv e := by
  unfold gemSlotE
  simp only [h1, h2]

theorem gemsB_ext {csm csm' : List ((String × Nat) × GovernorGearCharmSlot)}
    {clm clm' : List (Int × GovernorGearCharmLevel)}
    (h1 : ∀ k, dictFind csm k = dictFind csm' k)
    (h2 : ∀ k, dictFind clm k = dictFind clm' k) (gid : String)
    (gems : List Int) : ∀ (i : Nat) (b : Bonuses),
      gemsB csm clm gid i gems b = gemsB csm' clm' gid i gems b := by
  induction gems with
  | nil => intros; rfl
  | cons gv rest ih =>
    intro i b
    simp only [gemsB]
    rw [gemSlotB_ext h1 h2]
    exact ih _ _

theorem gemsT_ext {csm csm' : List ((String × Nat) × GovernorGearCharmSlot)}
    {clm clm' : List (Int × GovernorGearCharmLevel)}
    (h1 : ∀ k, dictFind csm k = dictFind csm' k)
    (h2 : ∀ k, dictFind clm k = dictFind clm' k) (gid : String)
    (gems : List Int) : ∀ (i : Nat) (t : TotalsDict),
      gemsT csm clm gid i gems t = gemsT csm' clm' gid i gems t := by
  induction gems with
  | nil => intros; rfl
  | cons gv rest ih =>
    intro i t
    simp only [gemsT]
    rw [gemSlotT_ext h1 h2]
    exact ih _ _

theorem gemsE_ext {csm csm' : List ((String × Nat) × GovernorGearCharmSlot)}
    {clm clm' : List (Int × GovernorGearCharmLevel)}
    (h1 : ∀ k, dictFind csm k = dictFind csm' k)
    (h2 : ∀ k, dictFind clm k = dictFind clm' k) (gid : String)
    (gems : List Int) : ∀ (i : Nat) (e : List String),
      gemsE csm clm gid i gems e = gemsE csm' clm' gid i gems e := by
  induction gems with
  | nil => intros; rfl
  | cons gv rest ih =>
    intro i e
    simp only [gemsE]
    rw [gemSlotE_ext h1 h2]
    exact ih _ _

theorem itemEntry_ext {gm gm' : List (String × GovernorGear)}
    {lm lm' : List ((GearRarity × Nat × Nat) × GovernorGearLevel)}
    {clm clm' : List (Int × GovernorGearCharmLevel)}
    {csm csm' : List ((String × Nat) × GovernorGearCharmSlot)}
    (hgm : ∀ k, dictFind gm k = dictFind gm' k)
    (hlm : ∀ k, dictFind lm k = dictFind lm' k)
    (hclm : ∀ k, dictFind clm k = dictFind clm' k)
    (hcsm : ∀ k, dictFind csm k = dictFind csm' k)
    (item : GearConfiguration) :
    itemEntry gm lm clm csm item = itemEntry gm' lm' clm' csm' item := by
  unfold itemEntry
  simp only [hgm, hlm]
  rw [gemsB_ext hcsm hclm, gemsE_ext hcsm hclm]

theorem itemTotalsFn_ext {gm gm' : List (String × GovernorGear)}
    {lm lm' : List ((GearRarity × Nat × Nat) × GovernorGearLevel)}
    {clm clm' : List (Int × GovernorGearCharmLevel)}
    {csm csm' : List ((String × Nat) × GovernorGearCharmSlot)}
    (hgm : ∀ k, dictFind gm k = dictFind gm' k)
    (hlm : ∀ k, dictFind lm k = dictFind lm' k)
    (hclm : ∀ k, dictFind clm k = dictFind clm' k)
    (hcsm : ∀ k, dictFind csm k = dictFind csm' k)
    (item : GearConfiguration) (tb : TotalsDict) :
    itemTotalsFn gm lm clm csm item tb = itemTotalsFn gm' lm' clm' csm' item tb := by
  unfold itemTotalsFn
  simp only [hgm, hlm]
  rw [gemsT_ext hcsm hclm]

theorem gearStatsCalculation_ext (x y : GearStatsCalculation)
    (h1 : x.total_bonuses = y.total_bonuses) (h2 : x.breakdown = y.breakdown) :
    x = y := by
  cases x
  cases y
  simp_all

theorem calculate_tables_ext {G G' : List GovernorGear}
    {L L' : List GovernorGearLevel} {CL CL' : List GovernorGearCharmLevel}
    {CS CS' : List GovernorGearCharmSlot}
    (hgm : ∀ k, dictFind (buildMap GovernorGear.gear_id G) k =
      dictFind (buildMap GovernorGear.gear_id G') k)
    (hlm : ∀ k, dictFind (buildMap (fun l => (l.rarity, l.tier, l.stars)) L) k =
      dictFind (buildMap (fun l => (l.rarity, l.tier, l.stars)) L') k)
    (hclm : ∀ k, dictFind (buildMap GovernorGearCharmLevel.level CL) k =
      dictFind (buildMap GovernorGearCharmLevel.level CL') k)
    (hcsm : ∀ k, dictFind (buildMap (fun s => (s.gear_id, s.slot_index)) CS) k =
      dictFind (buildMap (fun s => (s.gear_id, s.slot_index)) CS') k)
    (config : List GearConfiguration) :
    calculate_gear_stats config G L CL CS =
      calculate_gear_stats config G' L' CL' CS' := by
  apply gearStatsCalculation_ext
  · rw [calculate_totals, calculate_totals]
    induction config using List.reverseRecOn with
    | nil => rfl
    | append_singleton rest item ih =>
      rw [List.foldl_append, List.foldl_append]
      simp only [List.foldl_cons, List.foldl_nil]
      rw [ih, itemTotalsFn_ext hgm hlm hclm hcsm]
  · rw [calculate_breakdown, calculate_breakdown]
    apply List.map_congr_left
    intro item _
    exact itemEntry_ext hgm hlm hclm hcsm item

/-!  Additivity of the totals over the request list. -/

theorem totals_insert_one (gm : List (String × GovernorGear))
    (lm : List ((GearRarity × Nat × Nat) × GovernorGearLevel))
    (clm : List (Int × GovernorGearCharmLevel))
    (csm : List ((String × Nat) × GovernorGearCharmSlot))
    (r1 r2 : List GearConfiguration) (c : GearConfiguration) (g s : String) :
    innerGet ((r1 ++ c :: r2).foldl
      (fun t item => itemTotalsFn gm lm clm csm item t) []) g s =
      innerGet ((r1 ++ r2).foldl
        (fun t item => itemTotalsFn gm lm clm csm item t) []) g s +
        innerGet (itemTotalsFn gm lm clm csm c []) g s := by
  rw [List.foldl_append, List.foldl_append, List.foldl_cons]
  have e1 := isShift_config_foldl gm lm clm csm r2
    (itemTotalsFn gm lm clm csm c
      (r1.foldl (fun t item => itemTotalsFn gm lm clm csm item t) [])) g s
  have e2 := isShift_itemTotalsFn gm lm clm csm c
    (r1.foldl (fun t item => itemTotalsFn gm lm clm csm item t) []) g s
  have e3 := isShift_config_foldl gm lm clm csm r2
    (r1.foldl (fun t item => itemTotalsFn gm lm clm csm item t) []) g s
  linarith

/-!  Behaviour when the gear-level lookup fails. -/

theorem itemTotalsFn_level_none (gm : List (String × GovernorGear))
    (lm : List ((GearRarity × Nat × Nat) × GovernorGearLevel))
    (clm : List (Int × GovernorGearCharmLevel))
    (csm : List ((String × Nat) × GovernorGearCharmSlot))
    (item : GearConfiguration)
    (h : dictFind lm (item.rarity, item.tier, item.stars) = none)
    (tb : TotalsDict) :
    itemTotalsFn gm lm clm csm item tb =
      gemsT csm clm item.gear_id 0 item.gem_levels tb := by
  unfold itemTotalsFn
  rw [h]

theorem itemEntry_level_none (gm : List (String × GovernorGear))
    (lm : List ((GearRarity × Nat × Nat) × GovernorGearLevel))
    (clm : List (Int × GovernorGearCharmLevel))
    (csm : List ((String × Nat) × GovernorGearCharmSlot))
    (item : GearConfiguration)
    (h : dictFind lm (item.rarity, item.tier, item.stars) = none) :
    (itemEntry gm lm clm csm item).gear_bonus = [] ∧
      levelNotFoundMsg item ∈ (itemEntry gm lm clm csm item).errors := by
  unfold itemEntry
  rw [h]
  refine ⟨rfl, ?_⟩
  simp only []
  rw [gemsE_shift]
  cases hg : dictFind gm item.gear_id <;> simp

/-!  Ground string computations used when evaluating the fixture. -/

theorem troop_append_attack : "troop_" ++ "attack_pct" = "troop_attack_pct" := by decide

theorem troop_append_defense : "troop_" ++ "defense_pct" = "troop_defense_pct" := by decide

theorem troop_append_health : "troop_" ++ "health_pct" = "troop_health_pct" := by decide

theorem drop_troop_attack : pyDropChars "troop_attack_pct" 6 = "attack_pct" := by decide

theorem drop_troop_defense : pyDropChars "troop_defense_pct" 6 = "defense_pct" := by decide

theorem drop_troop_lethality : pyDropChars "troop_lethality_pct" 6 = "lethality_pct" := by decide

theorem drop_troop_health : pyDropChars "troop_health_pct" 6 = "health_pct" := by decide



/-!  Claims. -/

/-- C1 (as amended). For every lookup maps and configuration whose gear level
and gear piece resolve, if the gear level's bonus bundle contains one of the
keys `attack_pct`/`defense_pct`/`health_pct`, then that bonus appears in the
breakdown entry's `gear_bonus` map under the rewritten key `troop_<key>` and
never under the raw un-prefixed key; feeding the rewritten key into the group
totals, `add_to_total` records the contribution under the gear piece's
lower-cased troop-type group with the `troop_` prefix stripped back off, i.e.
under the raw stat name inside that group — not under `troop_<key>`. -/
theorem claim_C1 (gm : List (String × GovernorGear))
    (lm : List ((GearRarity × Nat × Nat) × GovernorGearLevel))
    (clm : List (Int × GovernorGearCharmLevel))
    (csm : List ((String × Nat) × GovernorGearCharmSlot))
    (item : GearConfiguration) (gl : GovernorGearLevel) (gi : GovernorGear)
    (key : String)
    (hkey : key = "attack_pct" ∨ key = "defense_pct" ∨ key = "health_pct")
    (hl : dictFind lm (item.rarity, item.tier, item.stars) = some gl)
    (hg : dictFind gm item.gear_id = some gi)
    (hmem : key ∈ gl.bonuses.map Prod.fst) :
    ("troop_" ++ key) ∈ (itemEntry gm lm clm csm item).gear_bonus.map Prod.fst ∧
    key ∉ (itemEntry gm lm clm csm item).gear_bonus.map Prod.fst ∧
    (∀ (b : Bonuses) (tb : TotalsDict) (v : ℚ),
      gearBonusStep gi.troop_type (b, tb) (key, v) =
        (bump b ("troop_" ++ key) v,
          updateGroup tb (pyLower gi.troop_type.value) key v)) ∧
    pyLower gi.troop_type.value ∈ (["infantry", "cavalry", "archer"] : List String) := by
  have hnk : normKey key = "troop_" ++ key := by
    unfold normKey
    rw [if_pos hkey]
  have hgb : (itemEntry gm lm clm csm item).gear_bonus =
      gl.bonuses.foldl gearB [] := by
    unfold itemEntry
    rw [hl, hg]
  refine ⟨?_, ?_, ?_, pyLower_value_mem gi.troop_type⟩
  · rw [hgb, ← hnk]
    exact mem_keys_foldl_gearB _ _ _ hmem
  · rw [hgb]
    intro hc
    rcases keys_foldl_gearB_sub _ _ _ hc with h2 | ⟨k0, _, hk0⟩
    · simp at h2
    · rcases hkey with rfl | rfl | rfl
      · exact (normKey_not_raw k0).1 hk0.symm
      · exact (normKey_not_raw k0).2.1 hk0.symm
      · exact (normKey_not_raw k0).2.2 hk0.symm
  · intro b tb v
    unfold gearBonusStep
    simp only [hnk]
    unfold add_to_total
    simp [pyStartsWith_append, pyDropChars_troop_append]

/-- Witness for C1: the fixture's head configuration at key `attack_pct`. -/
theorem claim_C1_witness :
    ("troop_" ++ "attack_pct") ∈
      (itemEntry (buildMap GovernorGear.gear_id fixtureGear)
        (buildMap (fun l => (l.rarity, l.tier, l.stars)) fixtureLevels)
        (buildMap GovernorGearCharmLevel.level fixtureCharmLevels)
        (buildMap (fun s => (s.gear_id, s.slot_index)) fixtureCharmSlots)
        ⟨"head", .epic, 0, 1, [1, 1, 1]⟩).gear_bonus.map Prod.fst ∧
    "attack_pct" ∉
      (itemEntry (buildMap GovernorGear.gear_id fixtureGear)
        (buildMap (fun l => (l.rarity, l.tier, l.stars)) fixtureLevels)
        (buildMap GovernorGearCharmLevel.level fixtureCharmLevels)
        (buildMap (fun s => (s.gear_id, s.slot_index)) fixtureCharmSlots)
        ⟨"head", .epic, 0, 1, [1, 1, 1]⟩).gear_bonus.map Prod.fst :=
  let h := claim_C1 (buildMap GovernorGear.gear_id fixtureGear)
    (buildMap (fun l => (l.rarity, l.tier, l.stars)) fixtureLevels)
    (buildMap GovernorGearCharmLevel.level fixtureCharmLevels)
    (buildMap (fun s => (s.gear_id, s.slot_index)) fixtureCharmSlots)
    ⟨"head", .epic, 0, 1, [1, 1, 1]⟩
    ⟨8, .epic, 0, 1, [("attack_pct", 36.89), ("defense_pct", 36.89)]⟩
    ⟨"head", "Head", .cavalry, 3, ["attack_pct", "defense_pct"]⟩
    "attack_pct" (Or.inl rfl) rfl rfl (by decide)
  ⟨h.1, h.2.1⟩

/-- Counterexample to C1 as stated: on the test fixture the head
configuration's resolved gear level bundles `attack_pct`, yet the `cavalry`
group of the returned totals has no `troop_attack_pct` key — the
contribution sits under the raw key `attack_pct` instead. -/
theorem claim_C1_counterexample :
    (∃ gl, dictFind (buildMap (fun l => (l.rarity, l.tier, l.stars))
        fixtureLevels) (GearRarity.epic, 0, 1) = some gl ∧
      "attack_pct" ∈ gl.bonuses.map Prod.fst) ∧
    (∃ gi, dictFind (buildMap GovernorGear.gear_id fixtureGear) "head" =
        some gi ∧ gi.troop_type = HeroClass.cavalry) ∧
    fixtureConfig.get? 0 = some ⟨"head", .epic, 0, 1, [1, 1, 1]⟩ ∧
    dictFind ((dictFind fixtureResult.total_bonuses "cavalry").getD [])
      "troop_attack_pct" = none ∧
    (dictFind ((dictFind fixtureResult.total_bonuses "cavalry").getD [])
      "attack_pct").isSome = true :=
  ⟨⟨_, rfl, by decide⟩, ⟨_, rfl, by decide⟩, rfl, by decide, by decide⟩

/-- Counterexample to C2 as stated: on the fixture the returned totals hold
no `troop_attack_pct` key in the `cavalry` group (the client-visible value
defaults to 0), so it is not within 0.01 of 73.78. -/
theorem claim_C2_counterexample :
    ¬ |innerGet fixtureResult.total_bonuses "cavalry" "troop_attack_pct" -
        73.78| < 0.01 := by
  have h : dictFind ((dictFind fixtureResult.total_bonuses "cavalry").getD [])
      "troop_attack_pct" = none := by decide
  unfold innerGet
  rw [h]
  simp only [Option.getD_none]
  rw [zero_sub, abs_neg, abs_of_nonneg (by norm_num : (0 : ℚ) ≤ 73.78)]
  norm_num

set_option maxRecDepth 40000 in
set_option maxHeartbeats 4000000 in
/-- C2 (as amended). On the six-configuration fixture the expected values
appear in the group totals under the stripped stat keys `attack_pct`,
`defense_pct` and `lethality_pct` (not under their `troop_`-prefixed names):
cavalry attack ≈ 73.78, cavalry defense ≈ 73.78, cavalry lethality ≈ 54,
infantry attack ≈ 88.23, infantry lethality ≈ 72, archer attack ≈ 79.56 and
archer lethality ≈ 73, each within 0.01. -/
theorem claim_C2 :
    |innerGet fixtureResult.total_bonuses "cavalry" "attack_pct" - 73.78| < 0.01 ∧
    |innerGet fixtureResult.total_bonuses "cavalry" "defense_pct" - 73.78| < 0.01 ∧
    |innerGet fixtureResult.total_bonuses "cavalry" "lethality_pct" - 54.0| < 0.01 ∧
    |innerGet fixtureResult.total_bonuses "infantry" "attack_pct" - 88.23| < 0.01 ∧
    |innerGet fixtureResult.total_bonuses "infantry" "lethality_pct" - 72.0| < 0.01 ∧
    |innerGet fixtureResult.total_bonuses "archer" "attack_pct" - 79.56| < 0.01 ∧
    |innerGet fixtureResult.total_bonuses "archer" "lethality_pct" - 73.0| < 0.01 := by
  norm_num [innerGet, fixtureResult, fixtureConfig, fixtureGear, fixtureLevels,
    fixtureCharmLevels, fixtureCharmSlots, calculate_gear_stats, calcFromMaps,
    processItem, gemLoop, gemSlotStep, gemBonusKeyStep, gearBonusStep, normKey,
    add_to_total, updateGroup, bump, buildMap, dictFind, dictInsert,
    pyLower_cavalry, pyLower_infantry, pyLower_archer, troop_append_attack,
    troop_append_defense, troop_append_health, drop_troop_attack,
    drop_troop_defense, drop_troop_lethality, drop_troop_health, pyStartsWith,
    fixtureTroopType, HeroClass.value, GearRarity.value, abs_sub_lt_iff,
    (by decide : ("attack_pct" : String) ≠ "defense_pct"),
    (by decide : ("attack_pct" : String) ≠ "lethality_pct"),
    (by decide : ("defense_pct" : String) ≠ "lethality_pct"),
    (by decide : ("attack_pct" : String) ≠ "health_pct"),
    (by decide : ("defense_pct" : String) ≠ "health_pct"),
    (by decide : ("lethality_pct" : String) ≠ "health_pct"),
    (by decide : ("cavalry" : String) ≠ "infantry"),
    (by decide : ("cavalry" : String) ≠ "archer"),
    (by decide : ("infantry" : String) ≠ "archer")]

/-- C3. For every input configuration list and lookup tables, the breakdown
list has exactly the same length as the input, and the entry at each index
echoes the `gear_id` of the input configuration at that index (input order is
preserved). -/
theorem claim_C3 (config : List GearConfiguration) (G : List GovernorGear)
    (L : List GovernorGearLevel) (CL : List GovernorGearCharmLevel)
    (CS : List GovernorGearCharmSlot) :
    (calculate_gear_stats config G L CL CS).breakdown.length = config.length ∧
    ∀ i : Nat,
      ((calculate_gear_stats config G L CL CS).breakdown.get? i).map
          GearStatsBreakdown.gear_id =
        (config.get? i).map GearConfiguration.gear_id := by
  rw [calculate_breakdown]
  refine ⟨by simp, ?_⟩
  intro i
  rw [List.get?_map]
  cases h : config.get? i with
  | none => simp
  | some item => simp [itemEntry]

/-- C5. Every contribution `add_to_total` accumulates lands in exactly one
(group, stat) cell: when the (possibly normalized) key starts with `troop_`
and a troop-type affinity is present, the group is the lower-cased troop-type
name (one of `infantry`/`cavalry`/`archer`); every other contribution goes to
the literal group `general`. All other groups are untouched. -/
theorem claim_C5 (tb : TotalsDict) (key : String) (val : ℚ)
    (t_type : Option HeroClass) :
    (∀ g s, innerGet (add_to_total tb key val t_type) g s =
      innerGet tb g s +
        if totalsGroup key t_type = g ∧ totalsStat key t_type = s then val
        else 0) ∧
    (∀ g, totalsGroup key t_type ≠ g →
      dictFind (add_to_total tb key val t_type) g = dictFind tb g) ∧
    (pyStartsWith key "troop_" = true ∧ t_type.isSome = true →
      totalsGroup key t_type ∈ (["infantry", "cavalry", "archer"] : List String)) ∧
    (¬(pyStartsWith key "troop_" = true ∧ t_type.isSome = true) →
      totalsGroup key t_type = "general") := by
  refine ⟨fun g s => innerGet_add_to_total tb key val t_type g s,
    fun g h => dictFind_add_to_total_ne tb key val t_type g h, ?_, ?_⟩
  · rintro ⟨h1, h2⟩
    cases t_type with
    | none => simp at h2
    | some t =>
      simp only [totalsGroup, h1, if_pos]
      exact pyLower_value_mem t
  · intro h
    cases t_type with
    | none => rfl
    | some t =>
      simp only [Option.isSome_some, and_true] at h
      simp [totalsGroup, h]

/-- Witness for C5: a `troop_`-prefixed key with a resolved affinity lands in
a troop-type group. -/
theorem claim_C5_witness :
    totalsGroup "troop_lethality_pct" (some HeroClass.archer) ∈
      (["infantry", "cavalry", "archer"] : List String) :=
  (claim_C5 [] "troop_lethality_pct" 1 (some HeroClass.archer)).2.2.1
    ⟨by decide, by decide⟩

/-- C7. Gem-bonus contributions are filtered on sign but gear-level
contributions are not: a supported bonus key whose value in the charm-level
bundle is absent-or-nonpositive (an absent key reads as 0.0) contributes
nothing to the gem-bonus map nor to the totals; a strictly positive one is
added; and every (key, value) pair of a gear-level bundle — a zero value
included — is bumped into the gear-bonus map and the group totals with no
filter. -/
theorem claim_C7 (slot : GovernorGearCharmSlot) (gd : GovernorGearCharmLevel)
    (key : String) :
    ((dictFind gd.bonuses key).getD 0 ≤ 0 →
      (∀ b, gemKeyB gd b key = b) ∧ (∀ t, gemKeyT slot gd t key = t)) ∧
    ((dictFind gd.bonuses key).getD 0 > 0 →
      ∀ b, dictFind (gemKeyB gd b key) key =
        some ((dictFind b key).getD 0 + (dictFind gd.bonuses key).getD 0)) ∧
    (∀ (kv : String × ℚ) (b : Bonuses),
      dictFind (gearB b kv) (normKey kv.1) =
        some ((dictFind b (normKey kv.1)).getD 0 + kv.2)) ∧
    (∀ (tt : HeroClass) (tb : TotalsDict) (kv : String × ℚ),
      innerGet (gearT tt tb kv) (totalsGroup (normKey kv.1) (some tt))
          (totalsStat (normKey kv.1) (some tt)) =
        innerGet tb (totalsGroup (normKey kv.1) (some tt))
          (totalsStat (normKey kv.1) (some tt)) + kv.2) := by
  refine ⟨?_, ?_, ?_, ?_⟩
  · intro h
    have hn : ¬(dictFind gd.bonuses key).getD 0 > 0 := not_lt.mpr h
    exact ⟨fun b => by unfold gemKeyB; rw [if_neg hn],
      fun t => by unfold gemKeyT; rw [if_neg hn]⟩
  · intro h b
    unfold gemKeyB
    rw [if_pos h]
    unfold bump
    rw [dictFind_insert, if_pos rfl]
  · intro kv b
    unfold gearB bump
    rw [dictFind_insert, if_pos rfl]
  · intro tt tb kv
    unfold gearT
    rw [innerGet_add_to_total, if_pos ⟨rfl, rfl⟩]

/-- Witness for C7: a zero-valued gear bonus still lands in the dict, while a
zero-valued gem bonus is dropped. -/
theorem claim_C7_witness :
    dictFind (gearB [] ("speed_pct", 0)) (normKey "speed_pct") = some 0 ∧
    gemKeyB ⟨1, []⟩ [("x", 1)] "speed_pct" = [("x", 1)] := by
  constructor
  · have h := (claim_C7 ⟨"head", 1, .cavalry, []⟩ ⟨1, []⟩ "speed_pct").2.2.1
      ("speed_pct", 0) []
    simpa using h
  · have h := ((claim_C7 ⟨"head", 1, .cavalry, []⟩ ⟨1, []⟩ "speed_pct").1
      (by norm_num [dictFind])).1 [("x", 1)]
    exact h


/-!  Error surfacing helpers. -/

theorem mem_gemsE_init (csm : List ((String × Nat) × GovernorGearCharmSlot))
    (clm : List (Int × GovernorGearCharmLevel)) (gid : String) (gems : List Int)
    (i : Nat) (e : List String) (msg : String) (h : msg ∈ e) :
    msg ∈ gemsE csm clm gid i gems e := by
  rw [gemsE_shift]
  exact List.mem_append_left _ h

theorem mem_gemsE_slot_missing (csm : List ((String × Nat) × GovernorGearCharmSlot))
    (clm : List (Int × GovernorGearCharmLevel)) (gid : String) (l1 : List Int)
    (gv : Int) (l2 : List Int) (e : List String)
    (hcs : dictFind csm (gid, l1.length + 1) = none) :
    slotNotFoundMsg (l1.length + 1) gid ∈
      gemsE csm clm gid 0 (l1 ++ gv :: l2) e := by
  rw [gemsE_append]
  rw [Nat.zero_add]
  have hstep : gemsE csm clm gid l1.length (gv :: l2)
      (gemsE csm clm gid 0 l1 e) =
      gemsE csm clm gid (l1.length + 1) l2
        (gemSlotE csm clm gid l1.length gv (gemsE csm clm gid 0 l1 e)) := rfl
  rw [hstep]
  have hse : gemSlotE csm clm gid l1.length gv (gemsE csm clm gid 0 l1 e) =
      gemsE csm clm gid 0 l1 e ++ [slotNotFoundMsg (l1.length + 1) gid] := by
    unfold gemSlotE
    rw [hcs]
  rw [hse]
  apply mem_gemsE_init
  simp

theorem mem_gemsE_level_missing (csm : List ((String × Nat) × GovernorGearCharmSlot))
    (clm : List (Int × GovernorGearCharmLevel)) (gid : String) (l1 : List Int)
    (gv : Int) (l2 : List Int) (e : List String) (slot : GovernorGearCharmSlot)
    (hcs : dictFind csm (gid, l1.length + 1) = some slot)
    (hcl : dictFind clm gv = none) :
    gemLevelNotFoundMsg gv ∈ gemsE csm clm gid 0 (l1 ++ gv :: l2) e := by
  rw [gemsE_append]
  rw [Nat.zero_add]
  have hstep : gemsE csm clm gid l1.length (gv :: l2)
      (gemsE csm clm gid 0 l1 e) =
      gemsE csm clm gid (l1.length + 1) l2
        (gemSlotE csm clm gid l1.length gv (gemsE csm clm gid 0 l1 e)) := rfl
  rw [hstep]
  have hse : gemSlotE csm clm gid l1.length gv (gemsE csm clm gid 0 l1 e) =
      gemsE csm clm gid 0 l1 e ++ [gemLevelNotFoundMsg gv] := by
    unfold gemSlotE
    rw [hcs, hcl]
  rw [hse]
  apply mem_gemsE_init
  simp

theorem itemEntry_errors_shape (gm : List (String × GovernorGear))
    (lm : List ((GearRarity × Nat × Nat) × GovernorGearLevel))
    (clm : List (Int × GovernorGearCharmLevel))
    (csm : List ((String × Nat) × GovernorGearCharmSlot))
    (item : GearConfiguration) :
    ∃ e0 : List String, (itemEntry gm lm clm csm item).errors =
      gemsE csm clm item.gear_id 0 item.gem_levels e0 := by
  unfold itemEntry
  cases dictFind lm (item.rarity, item.tier, item.stars) <;>
    cases dictFind gm item.gear_id <;> exact ⟨_, rfl⟩

theorem itemEntry_gear_none (gm : List (String × GovernorGear))
    (lm : List ((GearRarity × Nat × Nat) × GovernorGearLevel))
    (clm : List (Int × GovernorGearCharmLevel))
    (csm : List ((String × Nat) × GovernorGearCharmSlot))
    (item : GearConfiguration) (h : dictFind gm item.gear_id = none) :
    gearNotFoundMsg item ∈ (itemEntry gm lm clm csm item).errors := by
  unfold itemEntry
  rw [h]
  cases hl : dictFind lm (item.rarity, item.tier, item.stars) <;>
  · apply mem_gemsE_init
    simp

/-- C4. The embedded calculator is a total function returning a
`GearStatsCalculation` on every input (nothing raises): the breakdown covers
every input configuration — one entry per configuration, each computed from
its own configuration and the lookup maps alone, so no lookup failure stops
the processing of the remaining configurations or remaining gem slots — and
each of the four lookup failures surfaces as a string in the offending
configuration's errors list. -/
theorem claim_C4 (config : List GearConfiguration) (G : List GovernorGear)
    (L : List GovernorGearLevel) (CL : List GovernorGearCharmLevel)
    (CS : List GovernorGearCharmSlot) :
    (calculate_gear_stats config G L CL CS).breakdown.length = config.length ∧
    ((calculate_gear_stats config G L CL CS).breakdown =
      config.map (itemEntry (buildMap GovernorGear.gear_id G)
        (buildMap (fun l => (l.rarity, l.tier, l.stars)) L)
        (buildMap GovernorGearCharmLevel.level CL)
        (buildMap (fun s => (s.gear_id, s.slot_index)) CS))) ∧
    (∀ (gm : List (String × GovernorGear))
      (lm : List ((GearRarity × Nat × Nat) × GovernorGearLevel))
      (clm : List (Int × GovernorGearCharmLevel))
      (csm : List ((String × Nat) × GovernorGearCharmSlot))
      (item : GearConfiguration),
      (dictFind lm (item.rarity, item.tier, item.stars) = none →
        levelNotFoundMsg item ∈ (itemEntry gm lm clm csm item).errors) ∧
      (dictFind gm item.gear_id = none →
        gearNotFoundMsg item ∈ (itemEntry gm lm clm csm item).errors) ∧
      (∀ (l1 : List Int) (gv : Int) (l2 : List Int),
        item.gem_levels = l1 ++ gv :: l2 →
        dictFind csm (item.gear_id, l1.length + 1) = none →
        slotNotFoundMsg (l1.length + 1) item.gear_id ∈
          (itemEntry gm lm clm csm item).errors) ∧
      (∀ (l1 : List Int) (gv : Int) (l2 : List Int)
        (slot : GovernorGearCharmSlot),
        item.gem_levels = l1 ++ gv :: l2 →
        dictFind csm (item.gear_id, l1.length + 1) = some slot →
        dictFind clm gv = none →
        gemLevelNotFoundMsg gv ∈ (itemEntry gm lm clm csm item).errors)) := by
  refine ⟨?_, calculate_breakdown config G L CL CS, ?_⟩
  · rw [calculate_breakdown]
    simp
  intro gm lm clm csm item
  refine ⟨fun h => (itemEntry_level_none gm lm clm csm item h).2,
    fun h => itemEntry_gear_none gm lm clm csm item h, ?_, ?_⟩
  · intro l1 gv l2 hsplit hcs
    obtain ⟨e0, he⟩ := itemEntry_errors_shape gm lm clm csm item
    rw [he, hsplit]
    exact mem_gemsE_slot_missing csm clm item.gear_id l1 gv l2 e0 hcs
  · intro l1 gv l2 slot hsplit hcs hcl
    obtain ⟨e0, he⟩ := itemEntry_errors_shape gm lm clm csm item
    rw [he, hsplit]
    exact mem_gemsE_level_missing csm clm item.gear_id l1 gv l2 e0 slot hcs hcl

/-- Witness for C4: with empty lookup tables, the single test configuration's
entry collects both gear-lookup error strings. -/
theorem claim_C4_witness :
    levelNotFoundMsg ⟨"head", .epic, 0, 1, []⟩ ∈
      (itemEntry [] [] [] [] ⟨"head", .epic, 0, 1, []⟩).errors ∧
    gearNotFoundMsg ⟨"head", .epic, 0, 1, []⟩ ∈
      (itemEntry [] [] [] [] ⟨"head", .epic, 0, 1, []⟩).errors :=
  ⟨((claim_C4 [] [] [] [] []).2.2 [] [] [] [] ⟨"head", .epic, 0, 1, []⟩).1 rfl,
    ((claim_C4 [] [] [] [] []).2.2 [] [] [] [] ⟨"head", .epic, 0, 1, []⟩).2.1 rfl⟩

/-- C6. Totals are additive over configurations: relative to the request
without `c`, a request containing one copy of `c` adds `c`'s contribution to
every (group, stat) cell once, and appending a second identical copy adds it
exactly twice (exact equality in the rational model, hence within any
tolerance); duplicate `gear_id`s are never rejected — the duplicated request
still yields one breakdown entry per copy. -/
theorem claim_C6 (G : List GovernorGear) (L : List GovernorGearLevel)
    (CL : List GovernorGearCharmLevel) (CS : List GovernorGearCharmSlot)
    (r1 r2 : List GearConfiguration) (c : GearConfiguration) (g s : String) :
    (innerGet (calculate_gear_stats (r1 ++ c :: r2) G L CL CS).total_bonuses g s =
      innerGet (calculate_gear_stats (r1 ++ r2) G L CL CS).total_bonuses g s +
        innerGet (itemTotalsFn (buildMap GovernorGear.gear_id G)
          (buildMap (fun l => (l.rarity, l.tier, l.stars)) L)
          (buildMap GovernorGearCharmLevel.level CL)
          (buildMap (fun sl => (sl.gear_id, sl.slot_index)) CS) c []) g s) ∧
    (innerGet (calculate_gear_stats ((r1 ++ c :: r2) ++ [c]) G L CL CS).total_bonuses g s =
      innerGet (calculate_gear_stats (r1 ++ r2) G L CL CS).total_bonuses g s +
        2 * innerGet (itemTotalsFn (buildMap GovernorGear.gear_id G)
          (buildMap (fun l => (l.rarity, l.tier, l.stars)) L)
          (buildMap GovernorGearCharmLevel.level CL)
          (buildMap (fun sl => (sl.gear_id, sl.slot_index)) CS) c []) g s) ∧
    (calculate_gear_stats ((r1 ++ c :: r2) ++ [c]) G L CL CS).breakdown.length =
      r1.length + r2.length + 2 := by
  have h1 : innerGet (calculate_gear_stats (r1 ++ c :: r2) G L CL CS).total_bonuses g s =
      innerGet (calculate_gear_stats (r1 ++ r2) G L CL CS).total_bonuses g s +
        innerGet (itemTotalsFn (buildMap GovernorGear.gear_id G)
          (buildMap (fun l => (l.rarity, l.tier, l.stars)) L)
          (buildMap GovernorGearCharmLevel.level CL)
          (buildMap (fun sl => (sl.gear_id, sl.slot_index)) CS) c []) g s := by
    rw [calculate_totals, calculate_totals]
    exact totals_insert_one _ _ _ _ r1 r2 c g s
  refine ⟨h1, ?_, ?_⟩
  · have hl2 : (r1 ++ c :: r2) ++ [c] = r1 ++ c :: (r2 ++ [c]) := by simp
    have hl3 : r1 ++ (r2 ++ [c]) = (r1 ++ r2) ++ c :: ([] : List GearConfiguration) := by
      simp
    have h2 : innerGet (calculate_gear_stats ((r1 ++ c :: r2) ++ [c]) G L CL CS).total_bonuses g s =
        innerGet (calculate_gear_stats (r1 ++ (r2 ++ [c])) G L CL CS).total_bonuses g s +
          innerGet (itemTotalsFn (buildMap GovernorGear.gear_id G)
            (buildMap (fun l => (l.rarity, l.tier, l.stars)) L)
            (buildMap GovernorGearCharmLevel.level CL)
            (buildMap (fun sl => (sl.gear_id, sl.slot_index)) CS) c []) g s := by
      rw [hl2, calculate_totals, calculate_totals]
      exact totals_insert_one _ _ _ _ r1 (r2 ++ [c]) c g s
    have h3 : innerGet (calculate_gear_stats (r1 ++ (r2 ++ [c])) G L CL CS).total_bonuses g s =
        innerGet (calculate_gear_stats ((r1 ++ r2) ++ []) G L CL CS).total_bonuses g s +
          innerGet (itemTotalsFn (buildMap GovernorGear.gear_id G)
            (buildMap (fun l => (l.rarity, l.tier, l.stars)) L)
            (buildMap GovernorGearCharmLevel.level CL)
            (buildMap (fun sl => (sl.gear_id, sl.slot_index)) CS) c []) g s := by
      rw [hl3, calculate_totals, calculate_totals]
      exact totals_insert_one _ _ _ _ (r1 ++ r2) [] c g s
    rw [h2, h3, List.append_nil]
    ring
  · rw [calculate_breakdown]
    simp
    omega

/-- C8. For a configuration whose (rarity, tier, stars) has no gear-level
row: its breakdown entry has an empty `gear_bonus` and a non-empty errors
list (containing the level-not-found message); its effect on the totals is
exactly the gem phase (no gear-level contribution); and in any request
containing it the other configurations' entries are still their own
`itemEntry` values and the totals differ from the request without it by its
gem-phase contribution only. -/
theorem claim_C8 (G : List GovernorGear) (L : List GovernorGearLevel)
    (CL : List GovernorGearCharmLevel) (CS : List GovernorGearCharmSlot)
    (r1 r2 : List GearConfiguration) (item : GearConfiguration)
    (h : dictFind (buildMap (fun l => (l.rarity, l.tier, l.stars)) L)
      (item.rarity, item.tier, item.stars) = none) :
    (itemEntry (buildMap GovernorGear.gear_id G)
      (buildMap (fun l => (l.rarity, l.tier, l.stars)) L)
      (buildMap GovernorGearCharmLevel.level CL)
      (buildMap (fun sl => (sl.gear_id, sl.slot_index)) CS) item).gear_bonus = [] ∧
    levelNotFoundMsg item ∈ (itemEntry (buildMap GovernorGear.gear_id G)
      (buildMap (fun l => (l.rarity, l.tier, l.stars)) L)
      (buildMap GovernorGearCharmLevel.level CL)
      (buildMap (fun sl => (sl.gear_id, sl.slot_index)) CS) item).errors ∧
    (∀ tb, itemTotalsFn (buildMap GovernorGear.gear_id G)
        (buildMap (fun l => (l.rarity, l.tier, l.stars)) L)
        (buildMap GovernorGearCharmLevel.level CL)
        (buildMap (fun sl => (sl.gear_id, sl.slot_index)) CS) item tb =
      gemsT (buildMap (fun sl => (sl.gear_id, sl.slot_index)) CS)
        (buildMap GovernorGearCharmLevel.level CL) item.gear_id 0
        item.gem_levels tb) ∧
    ((calculate_gear_stats (r1 ++ item :: r2) G L CL CS).breakdown =
      (r1 ++ item :: r2).map (itemEntry (buildMap GovernorGear.gear_id G)
        (buildMap (fun l => (l.rarity, l.tier, l.stars)) L)
        (buildMap GovernorGearCharmLevel.level CL)
        (buildMap (fun sl => (sl.gear_id, sl.slot_index)) CS))) ∧
    (∀ g s, innerGet (calculate_gear_stats (r1 ++ item :: r2) G L CL CS).total_bonuses g s =
      innerGet (calculate_gear_stats (r1 ++ r2) G L CL CS).total_bonuses g s +
        innerGet (gemsT (buildMap (fun sl => (sl.gear_id, sl.slot_index)) CS)
          (buildMap GovernorGearCharmLevel.level CL) item.gear_id 0
          item.gem_levels []) g s) := by
  have hfix := itemEntry_level_none (buildMap GovernorGear.gear_id G)
    (buildMap (fun l => (l.rarity, l.tier, l.stars)) L)
    (buildMap GovernorGearCharmLevel.level CL)
    (buildMap (fun sl => (sl.gear_id, sl.slot_index)) CS) item h
  refine ⟨hfix.1, hfix.2, ?_, calculate_breakdown _ G L CL CS, ?_⟩
  · intro tb
    exact itemTotalsFn_level_none _ _ _ _ item h tb
  · intro g s
    rw [calculate_totals, calculate_totals]
    have h1 := totals_insert_one (buildMap GovernorGear.gear_id G)
      (buildMap (fun l => (l.rarity, l.tier, l.stars)) L)
      (buildMap GovernorGearCharmLevel.level CL)
      (buildMap (fun sl => (sl.gear_id, sl.slot_index)) CS) r1 r2 item g s
    rw [h1, itemTotalsFn_level_none _ _ _ _ item h]

/-- Witness for C8: empty tables, one configuration. -/
theorem claim_C8_witness :
    (itemEntry (buildMap GovernorGear.gear_id [])
      (buildMap (fun l => (l.rarity, l.tier, l.stars)) [])
      (buildMap GovernorGearCharmLevel.level [])
      (buildMap (fun sl => (sl.gear_id, sl.slot_index)) [])
      ⟨"head", .epic, 0, 1, []⟩).gear_bonus = [] ∧
    levelNotFoundMsg ⟨"head", .epic, 0, 1, []⟩ ∈
      (itemEntry (buildMap GovernorGear.gear_id [])
        (buildMap (fun l => (l.rarity, l.tier, l.stars)) [])
        (buildMap GovernorGearCharmLevel.level [])
        (buildMap (fun sl => (sl.gear_id, sl.slot_index)) [])
        ⟨"head", .epic, 0, 1, []⟩).errors :=
  ⟨(claim_C8 [] [] [] [] [] [] ⟨"head", .epic, 0, 1, []⟩ rfl).1,
    (claim_C8 [] [] [] [] [] [] ⟨"head", .epic, 0, 1, []⟩ rfl).2.1⟩

/-- C9. A gem position whose charm-slot lookup (or, with the slot resolved,
whose charm-level lookup) fails contributes nothing to the gem-bonus dict
and nothing to the totals (both per-position updates are the identity),
appends exactly one error string for that gem, and the gems before and after
it are processed exactly as they would be on their own (the loop over
`l1 ++ gv :: l2` factors through the failing position); in particular the
configuration's `gem_bonus` is just the fold over the other positions. -/
theorem claim_C9 (gm : List (String × GovernorGear))
    (lm : List ((GearRarity × Nat × Nat) × GovernorGearLevel))
    (clm : List (Int × GovernorGearCharmLevel))
    (csm : List ((String × Nat) × GovernorGearCharmSlot)) (gid : String)
    (l1 : List Int) (gv : Int) (l2 : List Int)
    (h : dictFind csm (gid, l1.length + 1) = none ∨
      ((dictFind csm (gid, l1.length + 1)).isSome = true ∧
        dictFind clm gv = none)) :
    (∀ b, gemSlotB csm clm gid l1.length gv b = b) ∧
    (∀ t, gemSlotT csm clm gid l1.length gv t = t) ∧
    (∃ msg, ∀ e, gemSlotE csm clm gid l1.length gv e = e ++ [msg]) ∧
    (∀ b, gemsB csm clm gid 0 (l1 ++ gv :: l2) b =
      gemsB csm clm gid (l1.length + 1) l2 (gemsB csm clm gid 0 l1 b)) ∧
    (∀ t, gemsT csm clm gid 0 (l1 ++ gv :: l2) t =
      gemsT csm clm gid (l1.length + 1) l2 (gemsT csm clm gid 0 l1 t)) ∧
    (∀ item : GearConfiguration, item.gear_id = gid →
      item.gem_levels = l1 ++ gv :: l2 →
      (itemEntry gm lm clm csm item).gem_bonus =
        gemsB csm clm gid (l1.length + 1) l2 (gemsB csm clm gid 0 l1 [])) := by
  have hB : ∀ b, gemSlotB csm clm gid l1.length gv b = b := by
    intro b
    unfold gemSlotB
    rcases h with hcs | ⟨hcs, hcl⟩
    · rw [hcs]
    · cases hs : dictFind csm (gid, l1.length + 1) with
      | none => rfl
      | some slot => rw [hcl]
  have hT : ∀ t, gemSlotT csm clm gid l1.length gv t = t := by
    intro t
    unfold gemSlotT
    rcases h with hcs | ⟨hcs, hcl⟩
    · rw [hcs]
    · cases hs : dictFind csm (gid, l1.length + 1) with
      | none => rfl
      | some slot => rw [hcl]
  have hE : ∃ msg, ∀ e, gemSlotE csm clm gid l1.length gv e = e ++ [msg] := by
    rcases h with hcs | ⟨hcs, hcl⟩
    · exact ⟨slotNotFoundMsg (l1.length + 1) gid, fun e => by
        unfold gemSlotE
        rw [hcs]⟩
    · cases hs : dictFind csm (gid, l1.length + 1) with
      | none => exact ⟨slotNotFoundMsg (l1.length + 1) gid, fun e => by
          unfold gemSlotE
          rw [hs]⟩
      | some slot => exact ⟨gemLevelNotFoundMsg gv, fun e => by
          unfold gemSlotE
          rw [hs, hcl]⟩
  have hgemsB : ∀ b, gemsB csm clm gid 0 (l1 ++ gv :: l2) b =
      gemsB csm clm gid (l1.length + 1) l2 (gemsB csm clm gid 0 l1 b) := by
    intro b
    rw [gemsB_append, Nat.zero_add]
    have hstep : gemsB csm clm gid l1.length (gv :: l2)
        (gemsB csm clm gid 0 l1 b) =
        gemsB csm clm gid (l1.length + 1) l2
          (gemSlotB csm clm gid l1.length gv (gemsB csm clm gid 0 l1 b)) := rfl
    rw [hstep, hB]
  refine ⟨hB, hT, hE, hgemsB, ?_, ?_⟩
  · intro t
    rw [gemsT_append, Nat.zero_add]
    have hstep : gemsT csm clm gid l1.length (gv :: l2)
        (gemsT csm clm gid 0 l1 t) =
        gemsT csm clm gid (l1.length + 1) l2
          (gemSlotT csm clm gid l1.length gv (gemsT csm clm gid 0 l1 t)) := rfl
    rw [hstep, hT]
  · intro item hid hsplit
    have hb : (itemEntry gm lm clm csm item).gem_bonus =
        gemsB csm clm item.gear_id 0 item.gem_levels [] := by
      unfold itemEntry
      cases dictFind lm (item.rarity, item.tier, item.stars) <;>
        cases dictFind gm item.gear_id <;> rfl
    rw [hb, hid, hsplit]
    exact hgemsB []

/-- Witness for C9: empty charm tables, a single gem at position 0. -/
theorem claim_C9_witness :
    gemSlotB [] [] "head" 0 1 [("x", 1)] = [("x", 1)] ∧
    gemSlotT [] [] "head" 0 1 [("general", [("y", 2)])] =
      [("general", [("y", 2)])] :=
  ⟨(claim_C9 [] [] [] [] "head" [] 1 [] (Or.inl rfl)).1 [("x", 1)],
    (claim_C9 [] [] [] [] "head" [] 1 [] (Or.inl rfl)).2.1
      [("general", [("y", 2)])]⟩

/-- C10. Every one of the four lookup maps is a dict comprehension, so a
lookup resolves to the entry appearing later in the fetched list
(`dictFind ∘ buildMap = lastWith`), and an earlier entry sharing its key with
a later one is silently ignored: removing it leaves the entire result of
`calculate_gear_stats` unchanged (hence it contributes to no breakdown
entry, no total and no error). -/
theorem claim_C10 :
    (∀ (G : List GovernorGear) k,
      dictFind (buildMap GovernorGear.gear_id G) k =
        lastWith GovernorGear.gear_id G k) ∧
    (∀ (L : List GovernorGearLevel) k,
      dictFind (buildMap (fun l => (l.rarity, l.tier, l.stars)) L) k =
        lastWith (fun l => (l.rarity, l.tier, l.stars)) L k) ∧
    (∀ (CL : List GovernorGearCharmLevel) k,
      dictFind (buildMap GovernorGearCharmLevel.level CL) k =
        lastWith GovernorGearCharmLevel.level CL k) ∧
    (∀ (CS : List GovernorGearCharmSlot) k,
      dictFind (buildMap (fun s => (s.gear_id, s.slot_index)) CS) k =
        lastWith (fun s => (s.gear_id, s.slot_index)) CS k) ∧
    (∀ (config : List GearConfiguration) (xs : List GovernorGear) x ys
      (L : List GovernorGearLevel) (CL : List GovernorGearCharmLevel)
      (CS : List GovernorGearCharmSlot),
      (∃ y ∈ ys, y.gear_id = x.gear_id) →
      calculate_gear_stats config (xs ++ x :: ys) L CL CS =
        calculate_gear_stats config (xs ++ ys) L CL CS) ∧
    (∀ (config : List GearConfiguration) (G : List GovernorGear)
      (xs : List GovernorGearLevel) x ys (CL : List GovernorGearCharmLevel)
      (CS : List GovernorGearCharmSlot),
      (∃ y ∈ ys, (y.rarity, y.tier, y.stars) = (x.rarity, x.tier, x.stars)) →
      calculate_gear_stats config G (xs ++ x :: ys) CL CS =
        calculate_gear_stats config G (xs ++ ys) CL CS) ∧
    (∀ (config : List GearConfiguration) (G : List GovernorGear)
      (L : List GovernorGearLevel) (xs : List GovernorGearCharmLevel) x ys
      (CS : List GovernorGearCharmSlot),
      (∃ y ∈ ys, y.level = x.level) →
      calculate_gear_stats config G L (xs ++ x :: ys) CS =
        calculate_gear_stats config G L (xs ++ ys) CS) ∧
    (∀ (config : List GearConfiguration) (G : List GovernorGear)
      (L : List GovernorGearLevel) (CL : List GovernorGearCharmLevel)
      (xs : List GovernorGearCharmSlot) x ys,
      (∃ y ∈ ys, (y.gear_id, y.slot_index) = (x.gear_id, x.slot_index)) →
      calculate_gear_stats config G L CL (xs ++ x :: ys) =
        calculate_gear_stats config G L CL (xs ++ ys)) := by
  refine ⟨fun G k => dictFind_buildMap _ G k,
    fun L k => dictFind_buildMap _ L k,
    fun CL k => dictFind_buildMap _ CL k,
    fun CS k => dictFind_buildMap _ CS k, ?_, ?_, ?_, ?_⟩
  · intro config xs x ys L CL CS hdup
    exact calculate_tables_ext
      (fun k => dictFind_buildMap_skip_dup GovernorGear.gear_id xs x ys hdup k)
      (fun k => rfl) (fun k => rfl) (fun k => rfl) config
  · intro config G xs x ys CL CS hdup
    exact calculate_tables_ext (fun k => rfl)
      (fun k => dictFind_buildMap_skip_dup _ xs x ys hdup k)
      (fun k => rfl) (fun k => rfl) config
  · intro config G L xs x ys CS hdup
    exact calculate_tables_ext (fun k => rfl) (fun k => rfl)
      (fun k => dictFind_buildMap_skip_dup GovernorGearCharmLevel.level xs x ys
        hdup k)
      (fun k => rfl) config
  · intro config G L CL xs x ys hdup
    exact calculate_tables_ext (fun k => rfl) (fun k => rfl) (fun k => rfl)
      (fun k => dictFind_buildMap_skip_dup _ xs x ys hdup k) config

/-- Witness for C10: two gear rows sharing `gear_id` — the earlier one is
ignored and the map resolves to the later. -/
theorem claim_C10_witness :
    calculate_gear_stats [⟨"head", .epic, 0, 1, []⟩]
      ([⟨"head", "Old", .infantry, 1, []⟩] ++
        ⟨"head", "Old", .infantry, 1, []⟩ :: [⟨"head", "New", .cavalry, 3, []⟩])
      [] [] [] =
    calculate_gear_stats [⟨"head", .epic, 0, 1, []⟩]
      ([⟨"head", "Old", .infantry, 1, []⟩] ++ [⟨"head", "New", .cavalry, 3, []⟩])
      [] [] [] :=
  claim_C10.2.2.2.2.1 [⟨"head", .epic, 0, 1, []⟩]
    [⟨"head", "Old", .infantry, 1, []⟩] ⟨"head", "Old", .infantry, 1, []⟩
    [⟨"head", "New", .cavalry, 3, []⟩] [] [] []
    ⟨⟨"head", "New", .cavalry, 3, []⟩, by simp, rfl⟩
